import Mathlib

/-!
# terraform-provider-hiveio: the resource operations, embedded

The provider is glue between the Terraform plugin framework and the
hive-go-client REST client.  Both collaborators are external, so the embedding
makes them explicit:

* the REST client is a record of state transformers over an arbitrary remote
  state `σ` (`Client σ`); every call made by the provider is appended to a trace
  so that "this call is (not) made" is a statement about the trace;
* Go `error` values are observed only through `err.Error()` and, for the retry
  helper, through being the timeout error;
* a Go function returning `(T, error)` whose value is read only after
  `err == nil` is an `Except GoError T`; where the source reads the value
  regardless of the error (the task of the shared-storage start call) the pair
  is kept.

Go strings are byte sequences; they are embedded as Lean strings, and
`strings.Contains` as the infix test on their characters.
-/

namespace Hiveio

/-! ## Go strings and errors -/

/-- `startsWith s p`: the character list `p` is an initial segment of `s`. -/
def startsWith : List Char → List Char → Bool
  | _, [] => true
  | [], _ :: _ => false
  | c :: s, d :: p => c == d && startsWith s p

/-- `containsChars s sub`: `sub` occurs in `s` at some offset. -/
def containsChars : List Char → List Char → Bool
  | [], sub => startsWith [] sub
  | c :: s, sub => startsWith (c :: s) sub || containsChars s sub

/-- Go `strings.Contains(s, substr)`. -/
def strings.Contains (s substr : String) : Bool :=
  containsChars s.data substr.data

/-- A Go `error` as the provider observes it: a message, or the retry helper's
timeout error. -/
inductive GoError
  | errorString (msg : String)
  | TimeoutError
  deriving DecidableEq, Repr

/-- Go `err.Error()`. -/
def GoError.Error : GoError → String
  | .errorString msg => msg
  | .TimeoutError => "timeout while waiting for state to become success"

/-- Go `fmt.Errorf(format, arg)` for a format that is a fixed text followed by
one `%s` verb. -/
def fmt.Errorf (text arg : String) : GoError :=
  .errorString (text ++ arg)

/-- The literal `"\"error\": 404"` every not-found test in the provider uses. -/
def notFoundMarker : String := "\"error\": 404"

/-- The test `strings.Contains(err.Error(), "\"error\": 404")`. -/
def isNotFound (err : GoError) : Bool :=
  strings.Contains err.Error notFoundMarker

/-! ## Records of the REST client (fields the provider reads or writes) -/

structure PoolDisk where
  DiskDriver : String
  Type_ : String
  StorageID : String
  Filename : String
  deriving DecidableEq, Repr

structure PoolInterface where
  Emulation : String
  Network : String
  Vlan : Int
  deriving DecidableEq, Repr

structure PoolCloudInit where
  Enabled : Bool
  UserData : String
  NetworkConfig : String
  deriving DecidableEq, Repr

structure PoolBackup where
  Enabled : Bool
  Frequency : String
  TargetStorageID : String
  deriving DecidableEq, Repr

structure PoolGuestProfile where
  OS : String := ""
  Firmware : String := ""
  Vga : String := ""
  Gpu : Bool := false
  Persistent : Bool := false
  TemplateName : String := ""
  CPU : List Int := []
  Mem : List Int := []
  CloudInit : Option PoolCloudInit := none
  Disks : List PoolDisk := []
  Interfaces : List PoolInterface := []
  deriving DecidableEq, Repr

structure Pool where
  ID : String := ""
  Name : String := ""
  InjectAgent : Bool := false
  Type_ : String := ""
  Density : List Int := []
  State : String := ""
  ProfileID : String := ""
  Seed : String := ""
  StorageID : String := ""
  StorageType : String := ""
  GuestProfile : Option PoolGuestProfile := none
  Backup : Option PoolBackup := none
  deriving DecidableEq, Repr

structure Realm where
  Name : String := ""
  FQDN : String := ""
  deriving DecidableEq, Repr

structure Task where
  State : String := ""
  Message : String := ""
  deriving DecidableEq, Repr

structure Guest where
  GuestState : String := ""
  TargetState : List String := []
  deriving DecidableEq, Repr

structure Cluster where
  ID : String := ""
  SharedStorageID : Option String := none
  deriving DecidableEq, Repr

/-! ## The REST client and the trace of calls -/

/-- The calls the provider makes, in the order it makes them. -/
inductive Event
  | GetPool (id : String)
  | GetPoolByName (name : String)
  | PoolCreate (name : String)
  | PoolDelete (id : String)
  | GetRealm (id : String)
  | RealmDelete (name : String)
  | GetGuest (name : String)
  | ClusterID
  | GetCluster (id : String)
  | EnableSharedStorage (utilization setSize : Int)
  | DisableSharedStorage
  | WaitForTask
  | Sleep (seconds : Nat)
  deriving DecidableEq, Repr

/-- The hive-go-client calls used by the provider, over a remote state `σ`. -/
structure Client (σ : Type) where
  GetPool : String → σ → Except GoError Pool × σ
  GetPoolByName : String → σ → Except GoError Pool × σ
  PoolCreate : Pool → σ → Option GoError × σ
  PoolDelete : Pool → σ → Option GoError × σ
  GetRealm : String → σ → Except GoError Realm × σ
  RealmDelete : Realm → σ → Option GoError × σ
  GetGuest : String → σ → Except GoError Guest × σ
  ClusterID : σ → Except GoError String × σ
  GetCluster : String → σ → Except GoError Cluster × σ
  EnableSharedStorage : Cluster → Int → Int → σ → (Option Task × Option GoError) × σ
  DisableSharedStorage : Cluster → σ → (Option Task × Option GoError) × σ
  WaitForTask : Option Task → σ → Except GoError Task × σ

/-- The remote state together with the trace of calls made so far. -/
structure World (σ : Type) where
  remote : σ
  trace : List Event

/-- Run one client call on the world and append its event to the trace. -/
def World.call {σ α : Type} (w : World σ) (ev : Event) (f : σ → α × σ) : α × World σ :=
  ((f w.remote).1, { remote := (f w.remote).2, trace := w.trace ++ [ev] })

/-- Go `time.Sleep(n * time.Second)`: only recorded in the trace. -/
def World.sleep {σ : Type} (w : World σ) (seconds : Nat) : World σ :=
  { w with trace := w.trace ++ [Event.Sleep seconds] }

/-! ## The plugin framework: resource data, diagnostics, the retry helper -/

/-- A dotted key of `d.Set` / `d.Get`: a top-level attribute `name`, or the
element `idx` of the list `list` (`"list.idx"`), or the attribute `name` of
element `idx` of the list `list`, which the source spells
`fmt.Sprintf("list.%d.", idx) + name`. -/
inductive Path
  | attr (name : String)
  | index (list : String) (idx : Nat)
  | item (list : String) (idx : Nat) (name : String)
  deriving DecidableEq, Repr

/-- A value handed to `d.Set`. -/
inductive Value
  | str (s : String)
  | int (i : Int)
  | bool (b : Bool)
  deriving DecidableEq, Repr

/-- Go `*schema.ResourceData`: the resource ID, the names of the top-level
attributes the resource's schema declares, the declared configuration `κ`, the
`d.Set` calls that took effect so far, and the create and delete timeouts
handed to the retry helper. -/
structure ResourceData (κ : Type) where
  Id : String
  config : κ
  schema : List String := []
  sets : List (Path × Value) := []
  TimeoutCreate : Nat := 0
  TimeoutDelete : Nat := 0

/-- Go `d.SetId(id)`. -/
def ResourceData.SetId {κ : Type} (d : ResourceData κ) (id : String) : ResourceData κ :=
  { d with Id := id }

/-- Go `d.Set(key, value)`, whose error the source discards.  The framework
writes a top-level attribute that the schema declares; it refuses, leaving the
resource data as it was, an attribute the schema does not declare and any key
inside a list ("can only set full list"). -/
def ResourceData.Set {κ : Type} (d : ResourceData κ) (key : Path) (v : Value) :
    ResourceData κ :=
  match key with
  | Path.attr name =>
    if name ∈ d.schema then { d with sets := d.sets ++ [(key, v)] } else d
  | Path.index _ _ => d
  | Path.item _ _ _ => d

/-- Go `diag.Diagnostics`: the errors reported by a context-aware operation. -/
abbrev Diagnostics := List GoError

/-- Go `diag.FromErr(err)` for a non-nil `err`. -/
def diag.FromErr (err : GoError) : Diagnostics := [err]

/-- Go `*resource.RetryError`. -/
structure RetryError where
  Err : Option GoError
  Retryable : Bool
  deriving DecidableEq, Repr

/-- Go `resource.RetryableError(err)`. -/
def resource.RetryableError (err : GoError) : Option RetryError :=
  some { Err := some err, Retryable := true }

/-- Go `resource.NonRetryableError(err)`; `err` may be nil. -/
def resource.NonRetryableError (err : Option GoError) : Option RetryError :=
  some { Err := err, Retryable := false }

/-- Modelled from the spec: `resource.Retry` of the plugin framework, which is
not part of the sources.  The step is run; a nil result ends the loop with
success, a non-retryable result ends it with the error it carries, a retryable
result runs the step again, and once the timeout is exceeded the loop aborts
with the timeout error.  The timeout is counted in step runs: `timeout` is the
number of runs of the step that fit before it is exceeded. -/
def resource.Retry {σ : Type} :
    Nat → (World σ → Option RetryError × World σ) → World σ → Option GoError × World σ
  | 0, _, w => (some GoError.TimeoutError, w)
  | n + 1, f, w =>
    match f w with
    | (none, w1) => (none, w1)
    | (some re, w1) =>
      if re.Retryable then resource.Retry n f w1 else (re.Err, w1)

/-- The last value written to `key` by a sequence of `d.Set` calls. -/
def lastSet : List (Path × Value) → Path → Option Value
  | [], _ => none
  | (k, v) :: rest, key =>
    match lastSet rest key with
    | some v1 => some v1
    | none => if k = key then some v else none

/-- The value of `key` after the `d.Set` calls recorded in `d`. -/
def ResourceData.lookup {κ : Type} (d : ResourceData κ) (key : Path) : Option Value :=
  lastSet d.sets key

/-- Go `d.Get(key)`: the value last written by `d.Set` if there is one,
otherwise the configured value, which `cfg` reads off the configuration. -/
def ResourceData.Get {κ : Type} (cfg : κ → Path → Option Value) (d : ResourceData κ)
    (key : Path) : Option Value :=
  (d.lookup key).or (cfg d.config key)

/-- Go `d.GetOk(key)` on an integer attribute: the value, and whether it has
been set to a non-zero value. -/
def GetOkInt (v : Int) : Option Int :=
  if v = 0 then none else some v

/-! ## resource_guest_pool.go -/

/-- The attributes declared by the schema of `resourceGuestPool`; `density` is a
list of exactly two integers (`MinItems` and `MaxItems` are 2). -/
structure GuestPoolConfig where
  name : String
  density : Int × Int
  cpu : Int := 0
  memory : Int := 0
  gpu : Bool := false
  persistent : Bool := false
  template : String
  profile : String
  seed : String
  state : String := ""
  storage_type : String := "disk"
  storage_id : String := "disk"
  deriving DecidableEq, Repr

/-- The names of the attributes in the schema of `resourceGuestPool`. -/
def resourceGuestPool.schema : List String :=
  ["name", "density", "cpu", "memory", "gpu", "persistent", "template", "profile", "seed",
    "state", "storage_type", "storage_id"]

/-- The configured value of a key of a guest-pool configuration. -/
def GuestPoolConfig.Get (c : GuestPoolConfig) : Path → Option Value
  | Path.attr name =>
    if name = "name" then some (Value.str c.name)
    else if name = "cpu" then some (Value.int c.cpu)
    else if name = "memory" then some (Value.int c.memory)
    else if name = "gpu" then some (Value.bool c.gpu)
    else if name = "persistent" then some (Value.bool c.persistent)
    else if name = "template" then some (Value.str c.template)
    else if name = "profile" then some (Value.str c.profile)
    else if name = "seed" then some (Value.str c.seed)
    else if name = "state" then some (Value.str c.state)
    else if name = "storage_type" then some (Value.str c.storage_type)
    else if name = "storage_id" then some (Value.str c.storage_id)
    else none
  | Path.index list idx =>
    if list = "density" then
      if idx = 0 then some (Value.int c.density.1)
      else if idx = 1 then some (Value.int c.density.2)
      else none
    else none
  | Path.item _ _ _ => none

/-- Go `poolFromResource`. -/
def poolFromResource (d : ResourceData GuestPoolConfig) : Pool :=
  let c := d.config
  let guestProfile : PoolGuestProfile :=
    { Persistent := c.persistent, TemplateName := c.template, Gpu := c.gpu }
  let guestProfile : PoolGuestProfile :=
    match GetOkInt c.cpu with
    | some cpu => { guestProfile with CPU := [cpu, cpu] }
    | none => guestProfile
  let guestProfile : PoolGuestProfile :=
    match GetOkInt c.memory with
    | some mem => { guestProfile with Mem := [mem, mem] }
    | none => guestProfile
  { Name := c.name
    ProfileID := c.profile
    Seed := c.seed
    InjectAgent := true
    StorageID := c.storage_id
    StorageType := c.storage_type
    Type_ := "vdi"
    Density := [c.density.1, c.density.2]
    GuestProfile := some guestProfile
    ID := if d.Id ≠ "" then d.Id else "" }

/-- The `d.Set` calls of `resourceGuestPoolRead` on the record `pool`; `none`
is a run-time panic (nil `GuestProfile`, or an index out of range). -/
def resourceGuestPoolRead.fields {κ : Type} (pool : Pool) (d : ResourceData κ) :
    Option (ResourceData κ) := do
  let d := d.Set (Path.attr "name") (Value.str pool.Name)
  let guestProfile ← pool.GuestProfile
  let cpu ← guestProfile.CPU[0]?
  let d := d.Set (Path.attr "cpu") (Value.int cpu)
  let mem ← guestProfile.Mem[0]?
  let d := d.Set (Path.attr "memory") (Value.int mem)
  let d := d.Set (Path.attr "gpu") (Value.bool guestProfile.Gpu)
  let d := d.Set (Path.attr "persistent") (Value.bool guestProfile.Persistent)
  let d := d.Set (Path.attr "inject_agent") (Value.bool pool.InjectAgent)
  let d := d.Set (Path.attr "template") (Value.str guestProfile.TemplateName)
  let d := d.Set (Path.attr "profile") (Value.str pool.ProfileID)
  let d := d.Set (Path.attr "seed") (Value.str pool.Seed)
  let d := d.Set (Path.attr "state") (Value.str pool.State)
  let d := d.Set (Path.attr "storage_type") (Value.str pool.StorageType)
  let d := d.Set (Path.attr "storage_id") (Value.str pool.StorageID)
  let density0 ← pool.Density[0]?
  let d := d.Set (Path.index "density" 0) (Value.int density0)
  let density1 ← pool.Density[1]?
  let d := d.Set (Path.index "density" 1) (Value.int density1)
  pure d

/-- Go `resourceGuestPoolRead`: the returned error and the resource data, or
`none` for a run-time panic. -/
def resourceGuestPoolRead {σ κ : Type} (client : Client σ) (d : ResourceData κ)
    (w : World σ) : Option (Option GoError × ResourceData κ) × World σ :=
  match w.call (Event.GetPool d.Id) (client.GetPool d.Id) with
  | (Except.error err, w1) => (some (some err, d), w1)
  | (Except.ok pool, w1) =>
    ((resourceGuestPoolRead.fields pool d).map (fun d1 => (none, d1)), w1)

/-- Go `resourceGuestPoolExists`. -/
def resourceGuestPoolExists {σ κ : Type} (client : Client σ) (d : ResourceData κ)
    (w : World σ) : (Bool × Option GoError) × World σ :=
  match w.call (Event.GetPool d.Id) (client.GetPool d.Id) with
  | (Except.error err, w1) =>
    if isNotFound err then ((false, none), w1) else ((true, some err), w1)
  | (Except.ok _, w1) => ((true, none), w1)

/-- Go `resourceGuestPoolDelete`. -/
def resourceGuestPoolDelete {σ κ : Type} (client : Client σ) (d : ResourceData κ)
    (w : World σ) : Option GoError × World σ :=
  match w.call (Event.GetPool d.Id) (client.GetPool d.Id) with
  | (Except.error err, w1) => (some err, w1)
  | (Except.ok pool, w1) => w1.call (Event.PoolDelete pool.ID) (client.PoolDelete pool)

/-! ## resource_realm.go -/

/-- Go `resourceRealmRead`. -/
def resourceRealmRead {σ κ : Type} (client : Client σ) (d : ResourceData κ)
    (w : World σ) : (Diagnostics × ResourceData κ) × World σ :=
  match w.call (Event.GetRealm d.Id) (client.GetRealm d.Id) with
  | (Except.error err, w1) =>
    if isNotFound err then (([], d.SetId ""), w1) else ((diag.FromErr err, d), w1)
  | (Except.ok realm, w1) =>
    (([], (((d.SetId realm.Name).Set (Path.attr "name") (Value.str realm.Name)).Set
        (Path.attr "fqdn") (Value.str realm.FQDN))), w1)

/-- Go `resourceRealmDelete`. -/
def resourceRealmDelete {σ κ : Type} (client : Client σ) (d : ResourceData κ)
    (w : World σ) : Diagnostics × World σ :=
  match w.call (Event.GetRealm d.Id) (client.GetRealm d.Id) with
  | (Except.error err, w1) => (diag.FromErr err, w1)
  | (Except.ok realm, w1) =>
    match w1.call (Event.RealmDelete realm.Name) (client.RealmDelete realm) with
    | (some err, w2) => (diag.FromErr err, w2)
    | (none, w2) => ([], w2)

/-! ## resource_virtual_machine.go -/

/-- An element of the `disk` list of the schema of `resourceVM`. -/
structure DiskConfig where
  type : String := "Disk"
  storage_id : String
  filename : String
  disk_driver : String := "virtio"
  format : String := "qcow2"
  size : String := ""
  deriving DecidableEq, Repr

/-- An element of the `interface` list of the schema of `resourceVM`. -/
structure InterfaceConfig where
  network : String
  vlan : Int
  emulation : String := "virtio"
  deriving DecidableEq, Repr

/-- An element of the `backup` list of the schema of `resourceVM`. -/
structure BackupConfig where
  enabled : Bool
  frequency : String
  target : String
  deriving DecidableEq, Repr

/-- The attributes declared by the schema of `resourceVM`. -/
structure VMConfig where
  name : String
  cpu : Int
  memory : Int
  gpu : Bool := false
  firmware : String := "uefi"
  display_driver : String := "cirrus"
  os : String
  inject_agent : Bool := true
  state : String := ""
  disk : List DiskConfig := []
  interface : List InterfaceConfig := []
  backup : List BackupConfig := []
  cloudinit_enabled : Bool := false
  cloudinit_userdata : String := ""
  cloudinit_networkconfig : String := ""
  deriving DecidableEq, Repr

/-- The names of the attributes in the schema of `resourceVM`. -/
def resourceVM.schema : List String :=
  ["name", "cpu", "memory", "gpu", "firmware", "display_driver", "os", "inject_agent", "state",
    "disk", "interface", "backup", "cloudinit_enabled", "cloudinit_userdata",
    "cloudinit_networkconfig"]

/-- The configured value of an attribute of a disk. -/
def DiskConfig.Get (disk : DiskConfig) (name : String) : Option Value :=
  if name = "type" then some (Value.str disk.type)
  else if name = "storage_id" then some (Value.str disk.storage_id)
  else if name = "filename" then some (Value.str disk.filename)
  else if name = "disk_driver" then some (Value.str disk.disk_driver)
  else if name = "format" then some (Value.str disk.format)
  else if name = "size" then some (Value.str disk.size)
  else none

/-- The configured value of an attribute of an interface. -/
def InterfaceConfig.Get (iface : InterfaceConfig) (name : String) : Option Value :=
  if name = "network" then some (Value.str iface.network)
  else if name = "vlan" then some (Value.int iface.vlan)
  else if name = "emulation" then some (Value.str iface.emulation)
  else none

/-- The configured value of an attribute of a backup block. -/
def BackupConfig.Get (backup : BackupConfig) (name : String) : Option Value :=
  if name = "enabled" then some (Value.bool backup.enabled)
  else if name = "frequency" then some (Value.str backup.frequency)
  else if name = "target" then some (Value.str backup.target)
  else none

/-- The configured value of a key of a VM configuration. -/
def VMConfig.Get (c : VMConfig) : Path → Option Value
  | Path.attr name =>
    if name = "name" then some (Value.str c.name)
    else if name = "cpu" then some (Value.int c.cpu)
    else if name = "memory" then some (Value.int c.memory)
    else if name = "gpu" then some (Value.bool c.gpu)
    else if name = "firmware" then some (Value.str c.firmware)
    else if name = "display_driver" then some (Value.str c.display_driver)
    else if name = "os" then some (Value.str c.os)
    else if name = "inject_agent" then some (Value.bool c.inject_agent)
    else if name = "state" then some (Value.str c.state)
    else if name = "cloudinit_enabled" then some (Value.bool c.cloudinit_enabled)
    else if name = "cloudinit_userdata" then some (Value.str c.cloudinit_userdata)
    else if name = "cloudinit_networkconfig" then some (Value.str c.cloudinit_networkconfig)
    else none
  | Path.index _ _ => none
  | Path.item list idx name =>
    if list = "disk" then (c.disk[idx]?).bind fun disk => disk.Get name
    else if list = "interface" then (c.interface[idx]?).bind fun iface => iface.Get name
    else if list = "backup" then (c.backup[idx]?).bind fun backup => backup.Get name
    else none

/-- Go `vmFromResource`. -/
def vmFromResource (d : ResourceData VMConfig) : Pool :=
  let c := d.config
  let guestProfile : PoolGuestProfile :=
    { OS := c.os, Firmware := c.firmware, Vga := c.display_driver, Gpu := c.gpu }
  let guestProfile : PoolGuestProfile :=
    match GetOkInt c.cpu with
    | some cpu => { guestProfile with CPU := [cpu, cpu] }
    | none => guestProfile
  let guestProfile : PoolGuestProfile :=
    match GetOkInt c.memory with
    | some mem => { guestProfile with Mem := [mem, mem] }
    | none => guestProfile
  let guestProfile : PoolGuestProfile :=
    if c.cloudinit_enabled then
      { guestProfile with
        CloudInit := some
          { Enabled := c.cloudinit_enabled
            UserData := c.cloudinit_userdata
            NetworkConfig := c.cloudinit_networkconfig } }
    else guestProfile
  let disks : List PoolDisk := c.disk.map fun disk =>
    { DiskDriver := disk.disk_driver
      Type_ := disk.type
      StorageID := disk.storage_id
      Filename := disk.filename }
  let interfaces : List PoolInterface := c.interface.map fun iface =>
    { Emulation := iface.emulation
      Network := iface.network
      Vlan := iface.vlan }
  let guestProfile : PoolGuestProfile :=
    { guestProfile with Disks := disks, Interfaces := interfaces }
  { Name := c.name
    InjectAgent := c.inject_agent
    Type_ := "standalone"
    Density := [1, 1]
    GuestProfile := some guestProfile
    ID := if d.Id ≠ "" then d.Id else ""
    Backup :=
      match c.backup with
      | [] => none
      | backup :: _ =>
        some
          { Enabled := backup.enabled
            Frequency := backup.frequency
            TargetStorageID := backup.target } }

/-- The loop over `pool.GuestProfile.Disks` in `resourceVMRead`, from index `i`. -/
def resourceVMRead.setDisks {κ : Type} (d : ResourceData κ) : Nat → List PoolDisk → ResourceData κ
  | _, [] => d
  | i, disk :: rest =>
    let d := d.Set (Path.item "disk" i "disk_driver") (Value.str disk.DiskDriver)
    let d := d.Set (Path.item "disk" i "type") (Value.str disk.Type_)
    let d := d.Set (Path.item "disk" i "storage_id") (Value.str disk.StorageID)
    let d := d.Set (Path.item "disk" i "filename") (Value.str disk.Filename)
    resourceVMRead.setDisks d (i + 1) rest

/-- The loop over `pool.GuestProfile.Interfaces` in `resourceVMRead`, from index `i`. -/
def resourceVMRead.setInterfaces {κ : Type} (d : ResourceData κ) :
    Nat → List PoolInterface → ResourceData κ
  | _, [] => d
  | i, iface :: rest =>
    let d := d.Set (Path.item "interface" i "emulation") (Value.str iface.Emulation)
    let d := d.Set (Path.item "interface" i "network") (Value.str iface.Network)
    let d := d.Set (Path.item "interface" i "vlan") (Value.int iface.Vlan)
    resourceVMRead.setInterfaces d (i + 1) rest

/-- The `d.Set` calls of `resourceVMRead` on the record `pool`; `none` is a
run-time panic (nil `GuestProfile`, or an index out of range). -/
def resourceVMRead.fields {κ : Type} (pool : Pool) (d : ResourceData κ) :
    Option (ResourceData κ) := do
  let d := d.Set (Path.attr "name") (Value.str pool.Name)
  let guestProfile ← pool.GuestProfile
  let cpu ← guestProfile.CPU[0]?
  let d := d.Set (Path.attr "cpu") (Value.int cpu)
  let mem ← guestProfile.Mem[0]?
  let d := d.Set (Path.attr "memory") (Value.int mem)
  let d := d.Set (Path.attr "gpu") (Value.bool guestProfile.Gpu)
  let d := d.Set (Path.attr "inject_agent") (Value.bool pool.InjectAgent)
  let d := d.Set (Path.attr "state") (Value.str pool.State)
  let d := d.Set (Path.attr "os") (Value.str guestProfile.OS)
  let d := d.Set (Path.attr "firmware") (Value.str guestProfile.Firmware)
  let d := d.Set (Path.attr "display_driver") (Value.str guestProfile.Vga)
  let d := resourceVMRead.setDisks d 0 guestProfile.Disks
  let d := resourceVMRead.setInterfaces d 0 guestProfile.Interfaces
  let d :=
    match guestProfile.CloudInit with
    | some cloudInit =>
      ((d.Set (Path.attr "cloudinit_enabled") (Value.bool cloudInit.Enabled)).Set
        (Path.attr "cloudinit_userdata") (Value.str cloudInit.UserData)).Set
        (Path.attr "cloudinit_networkconfig") (Value.str cloudInit.NetworkConfig)
    | none => d
  let d :=
    match pool.Backup with
    | some backup =>
      ((d.Set (Path.item "backup" 0 "enabled") (Value.bool backup.Enabled)).Set
        (Path.item "backup" 0 "frequency") (Value.str backup.Frequency)).Set
        (Path.item "backup" 0 "target") (Value.str backup.TargetStorageID)
    | none => d
  pure d

/-- Go `resourceVMRead`: the returned error and the resource data, or `none`
for a run-time panic. -/
def resourceVMRead {σ κ : Type} (client : Client σ) (d : ResourceData κ)
    (w : World σ) : Option (Option GoError × ResourceData κ) × World σ :=
  match w.call (Event.GetPool d.Id) (client.GetPool d.Id) with
  | (Except.error err, w1) => (some (some err, d), w1)
  | (Except.ok pool, w1) =>
    ((resourceVMRead.fields pool d).map (fun d1 => (none, d1)), w1)

/-- The function literal passed to `resource.Retry` in `resourceVMCreate`, for
the guest name `guestName` and the pool `pool` looked up before the loop. -/
def resourceVMCreate.step {σ : Type} (client : Client σ) (guestName : String) (pool : Pool)
    (w : World σ) : Option RetryError × World σ :=
  match w.call (Event.GetGuest guestName) (client.GetGuest guestName) with
  | (Except.error err, w1) =>
    if isNotFound err then
      (resource.RetryableError (fmt.Errorf "Building pool " pool.ID), w1.sleep 5)
    else
      (resource.NonRetryableError (some err), w1)
  | (Except.ok guest, w1) =>
    if guest.TargetState.any (fun v => v == guest.GuestState) then
      (resource.NonRetryableError none, w1)
    else
      (resource.RetryableError (fmt.Errorf "Building pool " pool.ID), w1.sleep 5)

/-- Go `resourceVMExists`. -/
def resourceVMExists {σ κ : Type} (client : Client σ) (d : ResourceData κ)
    (w : World σ) : (Bool × Option GoError) × World σ :=
  match w.call (Event.GetPool d.Id) (client.GetPool d.Id) with
  | (Except.error err, w1) =>
    if isNotFound err then ((false, none), w1) else ((true, some err), w1)
  | (Except.ok _, w1) => ((true, none), w1)

/-- The function literal passed to `resource.Retry` in `resourceVMDelete`. -/
def resourceVMDelete.step {σ κ : Type} (client : Client σ) (d : ResourceData κ)
    (w : World σ) : Option RetryError × World σ :=
  match w.call (Event.GetPool d.Id) (client.GetPool d.Id) with
  | (Except.ok pool, w1) =>
    if pool.State = "deleting" then
      (resource.RetryableError (fmt.Errorf "Deleting pool " d.Id), w1.sleep 5)
    else
      (resource.NonRetryableError none, w1)
  | (Except.error err, w1) =>
    if isNotFound err then
      (resource.NonRetryableError none, w1.sleep 5)
    else
      (resource.NonRetryableError (some err), w1)

/-- Go `resourceVMDelete`. -/
def resourceVMDelete {σ κ : Type} (client : Client σ) (d : ResourceData κ)
    (w : World σ) : Option GoError × World σ :=
  match w.call (Event.GetPool d.Id) (client.GetPool d.Id) with
  | (Except.error err, w1) => (some err, w1)
  | (Except.ok pool, w1) =>
    let w2 := (w1.call (Event.PoolDelete pool.ID) (client.PoolDelete pool)).2
    resource.Retry d.TimeoutDelete (resourceVMDelete.step client d) w2

/-! ## resource_shared_storage.go -/

/-- The test `err != nil && strings.Contains(err.Error(), "Not enough hosts")`. -/
def isNotEnoughHosts (err : Option GoError) : Bool :=
  match err with
  | some e => strings.Contains e.Error "Not enough hosts"
  | none => false

/-- The function literal passed to `resource.Retry` in
`resourceSharedStorageCreate`. -/
def resourceSharedStorageCreate.step {σ : Type} (client : Client σ) (cluster : Cluster)
    (utilization setSize : Int) (w : World σ) : Option RetryError × World σ :=
  match w.call (Event.EnableSharedStorage utilization setSize)
      (client.EnableSharedStorage cluster utilization setSize) with
  | ((task, err), w1) =>
    if isNotEnoughHosts err then
      (resource.RetryableError (GoError.errorString "not enough hosts"), w1.sleep 15)
    else
      match w1.call Event.WaitForTask (client.WaitForTask task) with
      | (Except.error err, w2) => (resource.NonRetryableError (some err), w2)
      | (Except.ok task, w2) =>
        if task.State = "failed" then
          (resource.NonRetryableError
            (some (fmt.Errorf "failed to Enable Shared storage: " task.Message)), w2)
        else
          (none, w2)

/-- The `resource.Retry` call of `resourceSharedStorageCreate`, which runs under
the delete timeout. -/
def resourceSharedStorageCreate.retry {σ κ : Type} (client : Client σ) (d : ResourceData κ)
    (cluster : Cluster) (utilization setSize : Int) (w : World σ) : Option GoError × World σ :=
  resource.Retry d.TimeoutDelete
    (resourceSharedStorageCreate.step client cluster utilization setSize) w

/-- The function literal passed to `resource.Retry` in
`resourceSharedStorageDelete`. -/
def resourceSharedStorageDelete.step {σ : Type} (client : Client σ)
    (w : World σ) : Option RetryError × World σ :=
  match w.call Event.ClusterID client.ClusterID with
  | (Except.error err, w1) => (resource.NonRetryableError (some err), w1)
  | (Except.ok clusterID, w1) =>
    match w1.call (Event.GetCluster clusterID) (client.GetCluster clusterID) with
    | (Except.error err, w2) => (resource.NonRetryableError (some err), w2)
    | (Except.ok cluster, w2) =>
      match w2.call Event.DisableSharedStorage (client.DisableSharedStorage cluster) with
      | ((_, some err), w3) => (resource.RetryableError err, w3)
      | ((task, none), w3) =>
        match w3.call Event.WaitForTask (client.WaitForTask task) with
        | (Except.error err, w4) => (resource.RetryableError err, w4)
        | (Except.ok task, w4) =>
          if task.State = "failed" then
            (resource.NonRetryableError
              (some (fmt.Errorf "failed to Disable Shared storage: " task.Message)), w4)
          else
            (none, w4)

/-- Go `resourceSharedStorageDelete`. -/
def resourceSharedStorageDelete {σ κ : Type} (client : Client σ) (d : ResourceData κ)
    (w : World σ) : Option GoError × World σ :=
  resource.Retry d.TimeoutDelete (resourceSharedStorageDelete.step client) w

/-- The `resource.Retry` call of `resourceVMCreate`, which runs under the create
timeout. -/
def resourceVMCreate.retry {σ κ : Type} (client : Client σ) (d : ResourceData κ)
    (guestName : String) (pool : Pool) (w : World σ) : Option GoError × World σ :=
  resource.Retry d.TimeoutCreate (resourceVMCreate.step client guestName pool) w

/-- The step `f`, run `n` times in a row from `w`, reports a retryable error
every time. -/
def keepsRetrying {σ : Type} (f : World σ → Option RetryError × World σ) :
    Nat → World σ → Bool
  | 0, _ => true
  | n + 1, w =>
    (match (f w).1 with
      | some re => re.Retryable
      | none => false) && keepsRetrying f n (f w).2

/-- The world after the initial lookup and the delete call of
`resourceVMDelete`, from which its polling starts. -/
def resourceVMDelete.pollStart {σ κ : Type} (client : Client σ) (d : ResourceData κ)
    (pool : Pool) (w : World σ) : World σ :=
  ((w.call (Event.GetPool d.Id) (client.GetPool d.Id)).2.call (Event.PoolDelete pool.ID)
    (client.PoolDelete pool)).2

/-! ## A scripted client, for running the operations on concrete inputs -/

/-- The answers a scripted remote gives, per call, in order. -/
structure Script where
  getPool : List (Except GoError Pool) := []
  poolDelete : List (Option GoError) := []
  getRealm : List (Except GoError Realm) := []
  realmDelete : List (Option GoError) := []
  getGuest : List (Except GoError Guest) := []
  clusterID : List (Except GoError String) := []
  getCluster : List (Except GoError Cluster) := []
  enable : List (Option Task × Option GoError) := []
  disable : List (Option Task × Option GoError) := []
  wait : List (Except GoError Task) := []

/-- The error a scripted remote answers with once its script has run out. -/
def scriptExhausted : GoError := GoError.errorString "script exhausted"

/-- The next answer of a script (or `dflt` when it has run out) and the rest. -/
def Script.next {α : Type} (dflt : α) : List α → α × List α
  | [] => (dflt, [])
  | a :: rest => (a, rest)

/-- The client that answers every call from the script. -/
def scriptedClient : Client Script where
  GetPool := fun _ s =>
    ((Script.next (Except.error scriptExhausted) s.getPool).1,
      { s with getPool := (Script.next (Except.error scriptExhausted) s.getPool).2 })
  GetPoolByName := fun _ s =>
    ((Script.next (Except.error scriptExhausted) s.getPool).1,
      { s with getPool := (Script.next (Except.error scriptExhausted) s.getPool).2 })
  PoolCreate := fun _ s => (none, s)
  PoolDelete := fun _ s =>
    ((Script.next (some scriptExhausted) s.poolDelete).1,
      { s with poolDelete := (Script.next (some scriptExhausted) s.poolDelete).2 })
  GetRealm := fun _ s =>
    ((Script.next (Except.error scriptExhausted) s.getRealm).1,
      { s with getRealm := (Script.next (Except.error scriptExhausted) s.getRealm).2 })
  RealmDelete := fun _ s =>
    ((Script.next (some scriptExhausted) s.realmDelete).1,
      { s with realmDelete := (Script.next (some scriptExhausted) s.realmDelete).2 })
  GetGuest := fun _ s =>
    ((Script.next (Except.error scriptExhausted) s.getGuest).1,
      { s with getGuest := (Script.next (Except.error scriptExhausted) s.getGuest).2 })
  ClusterID := fun s =>
    ((Script.next (Except.error scriptExhausted) s.clusterID).1,
      { s with clusterID := (Script.next (Except.error scriptExhausted) s.clusterID).2 })
  GetCluster := fun _ s =>
    ((Script.next (Except.error scriptExhausted) s.getCluster).1,
      { s with getCluster := (Script.next (Except.error scriptExhausted) s.getCluster).2 })
  EnableSharedStorage := fun _ _ _ s =>
    ((Script.next (none, some scriptExhausted) s.enable).1,
      { s with enable := (Script.next (none, some scriptExhausted) s.enable).2 })
  DisableSharedStorage := fun _ s =>
    ((Script.next (none, some scriptExhausted) s.disable).1,
      { s with disable := (Script.next (none, some scriptExhausted) s.disable).2 })
  WaitForTask := fun _ s =>
    ((Script.next (Except.error scriptExhausted) s.wait).1,
      { s with wait := (Script.next (Except.error scriptExhausted) s.wait).2 })

/-- A world over the scripted remote with an empty trace. -/
def Script.world (s : Script) : World Script := { remote := s, trace := [] }

/-- A not-found error as the REST client reports it. -/
def err404 : GoError := GoError.errorString "\"error\": 404, \"message\": \"not found\""

/-- A remote error that is neither not-found nor the transient precondition. -/
def errConnection : GoError := GoError.errorString "connection refused"

/-- The transient precondition error of the shared-storage start call. -/
def errNotEnoughHosts : GoError := GoError.errorString "Not enough hosts in cluster"

/-- Resource data with the ID `id`, no configuration, and both timeouts worth
`timeout` runs of a retry step. -/
def dataWithTimeout (id : String) (timeout : Nat) : ResourceData Unit :=
  { Id := id, config := (), TimeoutCreate := timeout, TimeoutDelete := timeout }

/-- Resource data with the ID `id` and no configuration. -/
def dataWithId (id : String) : ResourceData Unit := { Id := id, config := () }

/-- The error of a client answer, `none` when the call succeeded. -/
def errOf {α : Type} : Except GoError α → Option GoError
  | Except.error err => some err
  | Except.ok _ => none

/-! ## Configurations for running the payload builders and the reads -/

/-- A VM configuration: two CPUs, one raw-format disk, one interface, and
cloud-init user data with cloud-init left disabled. -/
def vmExample : ResourceData VMConfig :=
  { Id := ""
    schema := resourceVM.schema
    config :=
      { name := "web 1", cpu := 2, memory := 2048, os := "linux"
        disk := [{ storage_id := "s1", filename := "web.img", format := "raw" }]
        interface := [{ network := "br0", vlan := 10 }]
        cloudinit_userdata := "#cloud-config" } }

/-- The VM configuration `vmExample` with `cpu` set to 0. -/
def vmZeroCpu : ResourceData VMConfig :=
  { vmExample with config := { vmExample.config with cpu := 0 } }

/-- A guest-pool configuration that leaves the optional `cpu` and `memory`
unspecified. -/
def poolUnsetCpu : ResourceData GuestPoolConfig :=
  { Id := ""
    schema := resourceGuestPool.schema
    config := { name := "pool", density := (1, 2), template := "t", profile := "p", seed := "s" } }

/-- A guest-pool configuration with `cpu` and `memory` specified. -/
def poolExample : ResourceData GuestPoolConfig :=
  { Id := ""
    schema := resourceGuestPool.schema
    config :=
      { name := "pool", density := (1, 2), cpu := 4, memory := 4096, template := "t"
        profile := "p", seed := "s" } }

/-! ## `resourceVMCreate` and its guest name -/

/-- Go `strings.ToUpper(s)`: every character of `s` mapped through
`unicode.ToUpper`.  The case table belongs to the Go library and is taken as
the parameter `upper`. -/
def strings.ToUpper (upper : Char → Char) (s : String) : String :=
  String.mk (s.data.map upper)

/-- Go `strings.ReplaceAll(s, old, new)` for a one-character `old` and `new`. -/
def strings.ReplaceAll (s : String) (old new : Char) : String :=
  String.mk (s.data.map fun c => if c = old then new else c)

/-- The guest name `resourceVMCreate` computes from the pool name before the
loop: upper-cased, then every space replaced by an underscore. -/
def resourceVMCreate.guestName (upper : Char → Char) (name : String) : String :=
  strings.ReplaceAll (strings.ToUpper upper name) ' ' '_'

/-- Go `resourceVMCreate`: the returned error and the resource data, or `none`
for a run-time panic of the final read. -/
def resourceVMCreate {σ : Type} (upper : Char → Char) (client : Client σ)
    (d : ResourceData VMConfig) (w : World σ) :
    Option (Option GoError × ResourceData VMConfig) × World σ :=
  let pool := vmFromResource d
  match w.call (Event.PoolCreate pool.Name) (client.PoolCreate pool) with
  | (some err, w1) => (some (some err, d), w1)
  | (none, w1) =>
    match w1.call (Event.GetPoolByName pool.Name) (client.GetPoolByName pool.Name) with
    | (Except.error err, w2) => (some (some err, d), w2)
    | (Except.ok pool, w2) =>
      let guestName := resourceVMCreate.guestName upper pool.Name
      match resourceVMCreate.retry client d guestName pool w2 with
      | (some err, w3) => (some (some err, d), w3)
      | (none, w3) => resourceVMRead client (d.SetId pool.ID) w3

/-- A guest that has reached one of its target states. -/
def guestReady : Guest := { GuestState := "running", TargetState := ["running", "paused"] }

/-- A guest that has not reached its target state yet. -/
def guestBooting : Guest := { GuestState := "booting", TargetState := ["running"] }

/-! ## Lemmas on `strings.Contains` -/

theorem startsWith_iff (s p : List Char) : startsWith s p = true ↔ p <+: s := by
  induction s generalizing p with
  | nil => cases p <;> simp [startsWith]
  | cons c s ih =>
    cases p with
    | nil => simp [startsWith]
    | cons d p =>
      simp only [startsWith, Bool.and_eq_true, beq_iff_eq, ih, List.cons_prefix_cons]
      constructor
      · rintro ⟨h1, h2⟩
        exact ⟨h1.symm, h2⟩
      · rintro ⟨h1, h2⟩
        exact ⟨h1.symm, h2⟩

theorem containsChars_iff (s sub : List Char) : containsChars s sub = true ↔ sub <:+: s := by
  induction s with
  | nil =>
    simp only [containsChars, startsWith_iff, List.prefix_nil, List.infix_nil]
  | cons c s ih =>
    simp only [containsChars, Bool.or_eq_true, startsWith_iff, ih, List.infix_cons_iff]

theorem strings_Contains_iff (s sub : String) :
    strings.Contains s sub = true ↔ sub.data <:+: s.data := by
  simp only [strings.Contains, containsChars_iff]

theorem isNotFound_iff (err : GoError) :
    isNotFound err = true ↔ notFoundMarker.data <:+: err.Error.data := by
  simp only [isNotFound, strings_Contains_iff]

theorem errorf_contains_arg (text arg : String) :
    arg.data <:+: (fmt.Errorf text arg).Error.data := by
  simp only [fmt.Errorf, GoError.Error, String.data_append]
  exact (List.suffix_append _ _).isInfix

/-! ## Lemmas on the retry loop -/

theorem retry_keepsRetrying {σ : Type} (f : World σ → Option RetryError × World σ)
    (n : Nat) (w : World σ) (h : keepsRetrying f n w = true) :
    (resource.Retry n f w).1 = some GoError.TimeoutError := by
  induction n generalizing w with
  | zero => rfl
  | succ n ih =>
    simp only [keepsRetrying, Bool.and_eq_true] at h
    obtain ⟨h1, h2⟩ := h
    rcases hf : f w with ⟨r, w1⟩
    rw [hf] at h1 h2
    cases r with
    | none => simp at h1
    | some re =>
      simp only at h1 h2
      simp only [resource.Retry, hf, h1, if_true]
      exact ih w1 h2

theorem retry_trace_prefix {σ : Type} (f : World σ → Option RetryError × World σ)
    (hf : ∀ w, w.trace <+: (f w).2.trace) (n : Nat) (w : World σ) :
    w.trace <+: (resource.Retry n f w).2.trace := by
  induction n generalizing w with
  | zero => exact List.prefix_refl _
  | succ n ih =>
    rcases hfw : f w with ⟨r, w1⟩
    have h1 : w.trace <+: w1.trace := by
      have := hf w
      rwa [hfw] at this
    cases r with
    | none => simpa [resource.Retry, hfw] using h1
    | some re =>
      cases hre : re.Retryable with
      | false => simpa [resource.Retry, hfw, hre] using h1
      | true =>
        simp only [resource.Retry, hfw, hre, if_true]
        exact h1.trans (ih w1)

theorem retry_first_run_trace {σ : Type} (f : World σ → Option RetryError × World σ)
    (hf : ∀ w, w.trace <+: (f w).2.trace) (n : Nat) (w : World σ) :
    (f w).2.trace <+: (resource.Retry (n + 1) f w).2.trace := by
  rcases hfw : f w with ⟨r, w1⟩
  cases r with
  | none => simp [resource.Retry, hfw]
  | some re =>
    cases hre : re.Retryable with
    | false => simp [resource.Retry, hfw, hre]
    | true =>
      simp only [resource.Retry, hfw, hre, if_true]
      exact retry_trace_prefix f hf n w1

theorem vmDelete_step_trace {σ κ : Type} (client : Client σ) (d : ResourceData κ)
    (w : World σ) :
    (w.trace ++ [Event.GetPool d.Id]) <+: (resourceVMDelete.step client d w).2.trace := by
  cases h : (client.GetPool d.Id w.remote).1 with
  | error err =>
    cases hnf : isNotFound err
    · simp [resourceVMDelete.step, World.call, h, hnf]
    · simp [resourceVMDelete.step, World.call, World.sleep, h, hnf]
  | ok pool =>
    by_cases hs : pool.State = "deleting"
    · simp [resourceVMDelete.step, World.call, World.sleep, h, hs]
    · simp [resourceVMDelete.step, World.call, h, hs]

theorem vmCreate_step_trace {σ : Type} (client : Client σ) (guestName : String) (pool : Pool)
    (w : World σ) :
    (w.trace ++ [Event.GetGuest guestName]) <+:
      (resourceVMCreate.step client guestName pool w).2.trace := by
  cases h : (client.GetGuest guestName w.remote).1 with
  | error err =>
    cases hnf : isNotFound err
    · simp [resourceVMCreate.step, World.call, h, hnf]
    · simp [resourceVMCreate.step, World.call, World.sleep, h, hnf]
  | ok guest =>
    cases hany : guest.TargetState.any (fun v => v == guest.GuestState)
    · simp [resourceVMCreate.step, World.call, World.sleep, h, hany]
    · simp [resourceVMCreate.step, World.call, h, hany]

theorem vmRead_trace {σ κ : Type} (client : Client σ) (d : ResourceData κ) (w : World σ) :
    w.trace <+: (resourceVMRead client d w).2.trace := by
  cases h : (client.GetPool d.Id w.remote).1 <;> simp [resourceVMRead, World.call, h]

theorem guestState_any_iff (guest : Guest) :
    guest.TargetState.any (fun v => v == guest.GuestState) = true ↔
      guest.GuestState ∈ guest.TargetState := by
  simp only [List.any_eq_true, beq_iff_eq]
  constructor
  · rintro ⟨v, hv, rfl⟩
    exact hv
  · intro h
    exact ⟨_, h, rfl⟩

/-! ## C1: deleting a resource whose first lookup fails -/

/-- C1, as stated, fails: when the first lookup answers with a not-found error,
`resourceVMDelete` and `resourceGuestPoolDelete` return that error and
`resourceRealmDelete` returns it as a diagnostic; none reports success. -/
theorem C1_delete_absent_counterexample :
    isNotFound err404 = true ∧
    (resourceVMDelete scriptedClient (dataWithId "vm-1")
      (Script.world { getPool := [Except.error err404] })).1 = some err404 ∧
    (resourceGuestPoolDelete scriptedClient (dataWithId "pool-1")
      (Script.world { getPool := [Except.error err404] })).1 = some err404 ∧
    (resourceRealmDelete scriptedClient (dataWithId "realm-1")
      (Script.world { getRealm := [Except.error err404] })).1 = [err404] := by
  decide

/-- C1, amended: if the first lookup (GetPool / GetRealm) fails with any error,
a not-found error included, each of `resourceVMDelete`,
`resourceGuestPoolDelete` and `resourceRealmDelete` returns that error, and the
lookup is the only call it makes (no delete call, no polling). -/
theorem C1_delete_returns_lookup_error {σ κ : Type} (client : Client σ)
    (d : ResourceData κ) (w : World σ) (err : GoError) :
    ((client.GetPool d.Id w.remote).1 = Except.error err →
      (resourceVMDelete client d w).1 = some err ∧
      (resourceVMDelete client d w).2.trace = w.trace ++ [Event.GetPool d.Id] ∧
      (resourceGuestPoolDelete client d w).1 = some err ∧
      (resourceGuestPoolDelete client d w).2.trace = w.trace ++ [Event.GetPool d.Id]) ∧
    ((client.GetRealm d.Id w.remote).1 = Except.error err →
      (resourceRealmDelete client d w).1 = [err] ∧
      (resourceRealmDelete client d w).2.trace = w.trace ++ [Event.GetRealm d.Id]) := by
  refine ⟨fun h => ?_, fun h => ?_⟩
  · simp [resourceVMDelete, resourceGuestPoolDelete, World.call, h]
  · simp [resourceRealmDelete, World.call, h, diag.FromErr]

/-- C1, amended, at a not-found answer of a scripted remote. -/
theorem C1_delete_returns_lookup_error_witness :
    (resourceVMDelete scriptedClient (dataWithId "vm-1")
      (Script.world { getPool := [Except.error err404] })).1 = some err404 ∧
    (resourceVMDelete scriptedClient (dataWithId "vm-1")
      (Script.world { getPool := [Except.error err404] })).2.trace = [Event.GetPool "vm-1"] :=
  ⟨((C1_delete_returns_lookup_error scriptedClient (dataWithId "vm-1")
      (Script.world { getPool := [Except.error err404] }) err404).1 (by rfl)).1,
    ((C1_delete_returns_lookup_error scriptedClient (dataWithId "vm-1")
      (Script.world { getPool := [Except.error err404] }) err404).1 (by rfl)).2.1⟩

/-! ## C2: reading a resource whose lookup fails with not-found -/

/-- C2, as stated, fails: on a not-found answer `resourceVMRead` and
`resourceGuestPoolRead` return the error and leave the ID as it was. -/
theorem C2_read_absent_counterexample :
    isNotFound err404 = true ∧
    ((resourceVMRead scriptedClient (dataWithId "vm-1")
      (Script.world { getPool := [Except.error err404] })).1.map
        fun r => (r.1, r.2.Id)) = some (some err404, "vm-1") ∧
    ((resourceGuestPoolRead scriptedClient (dataWithId "pool-1")
      (Script.world { getPool := [Except.error err404] })).1.map
        fun r => (r.1, r.2.Id)) = some (some err404, "pool-1") := by
  decide

/-- C2, amended: when the lookup fails with a not-found error,
`resourceRealmRead` returns no diagnostics and clears the ID; whereas
`resourceGuestPoolRead` and `resourceVMRead` return the lookup's error
unchanged, whatever it is, and leave the resource data (ID included) as it
was. -/
theorem C2_read_lookup_error {σ κ : Type} (client : Client σ)
    (d : ResourceData κ) (w : World σ) (err : GoError) :
    ((client.GetRealm d.Id w.remote).1 = Except.error err → isNotFound err = true →
      (resourceRealmRead client d w).1.1 = [] ∧
      (resourceRealmRead client d w).1.2.Id = "") ∧
    ((client.GetPool d.Id w.remote).1 = Except.error err →
      (resourceGuestPoolRead client d w).1 = some (some err, d) ∧
      (resourceVMRead client d w).1 = some (some err, d)) := by
  refine ⟨fun h hnf => ?_, fun h => ?_⟩
  · simp [resourceRealmRead, World.call, h, hnf, ResourceData.SetId]
  · simp [resourceGuestPoolRead, resourceVMRead, World.call, h]

/-- C2, amended, at a not-found answer of a scripted remote. -/
theorem C2_read_lookup_error_witness :
    ((resourceRealmRead scriptedClient (dataWithId "realm-1")
      (Script.world { getRealm := [Except.error err404] })).1.1 = [] ∧
    (resourceRealmRead scriptedClient (dataWithId "realm-1")
      (Script.world { getRealm := [Except.error err404] })).1.2.Id = "") ∧
    (resourceVMRead scriptedClient (dataWithId "realm-1")
      (Script.world { getPool := [Except.error err404] })).1 =
        some (some err404, dataWithId "realm-1") :=
  ⟨(C2_read_lookup_error scriptedClient (dataWithId "realm-1")
      (Script.world { getRealm := [Except.error err404] }) err404).1 (by rfl) (by decide),
    ((C2_read_lookup_error scriptedClient (dataWithId "realm-1")
      (Script.world { getPool := [Except.error err404] }) err404).2 (by rfl)).2⟩

/-! ## C3: a failed task in the shared-storage steps -/

/-- C3: in the shared-storage enable step and disable step, whenever the task
wait is reached and returns without error a task whose State is "failed", the
step returns a non-retryable error whose message contains the task's Message. -/
theorem C3_failed_task_aborts {σ : Type} (client : Client σ) (cluster : Cluster)
    (utilization setSize : Int) (w : World σ) (task : Task) (hfailed : task.State = "failed") :
    (∀ start s1 s2, client.EnableSharedStorage cluster utilization setSize w.remote = (start, s1) →
      isNotEnoughHosts start.2 = false →
      client.WaitForTask start.1 s1 = (Except.ok task, s2) →
      ∃ err, (resourceSharedStorageCreate.step client cluster utilization setSize w).1 =
          some { Err := some err, Retryable := false } ∧
        task.Message.data <:+: err.Error.data) ∧
    (∀ clusterID cluster1 task0 s1 s2 s3 s4, client.ClusterID w.remote = (Except.ok clusterID, s1) →
      client.GetCluster clusterID s1 = (Except.ok cluster1, s2) →
      client.DisableSharedStorage cluster1 s2 = ((task0, none), s3) →
      client.WaitForTask task0 s3 = (Except.ok task, s4) →
      ∃ err, (resourceSharedStorageDelete.step client w).1 =
          some { Err := some err, Retryable := false } ∧
        task.Message.data <:+: err.Error.data) := by
  refine ⟨fun start s1 s2 h1 hne h2 => ?_, fun clusterID cluster1 task0 s1 s2 s3 s4 h1 h2 h3 h4 => ?_⟩
  · refine ⟨fmt.Errorf "failed to Enable Shared storage: " task.Message, ?_,
      errorf_contains_arg _ _⟩
    obtain ⟨t0, e0⟩ := start
    simp only at hne h2
    simp [resourceSharedStorageCreate.step, World.call, h1, hne, h2, hfailed,
      resource.NonRetryableError]
  · refine ⟨fmt.Errorf "failed to Disable Shared storage: " task.Message, ?_,
      errorf_contains_arg _ _⟩
    simp [resourceSharedStorageDelete.step, World.call, h1, h2, h3, h4, hfailed,
      resource.NonRetryableError]

/-- C3 on a scripted remote: the started task ends failed with the message
"disk allocation error", and the enable step returns a non-retryable error
containing "disk allocation error". -/
theorem C3_failed_task_aborts_witness :
    ∃ err, (resourceSharedStorageCreate.step scriptedClient {} 75 3
        (Script.world
          { enable := [(some { State := "pending" }, none)]
            wait := [Except.ok { State := "failed", Message := "disk allocation error" }] })).1 =
        some { Err := some err, Retryable := false } ∧
      "disk allocation error".data <:+: err.Error.data :=
  (C3_failed_task_aborts scriptedClient {} 75 3
    (Script.world
      { enable := [(some { State := "pending" }, none)]
        wait := [Except.ok { State := "failed", Message := "disk allocation error" }] })
    { State := "failed", Message := "disk allocation error" } rfl).1 _ _ _ rfl rfl rfl

/-! ## C4: a start call failing with a non-transient error -/

/-- C4, as stated, fails.  With a start error "connection refused" (not the
transient precondition): the disable step returns a retryable error, and the
loop starts the operation a second time and succeeds; the enable step goes on
to wait for the task, and the error it returns is the wait's, not the start's. -/
theorem C4_start_error_counterexample :
    isNotEnoughHosts (some errConnection) = false ∧
    (resourceSharedStorageDelete.step scriptedClient
      (Script.world
        { clusterID := [Except.ok "c1"]
          getCluster := [Except.ok { ID := "c1" }]
          disable := [(none, some errConnection)] })).1 =
      some { Err := some errConnection, Retryable := true } ∧
    (resourceSharedStorageDelete scriptedClient (dataWithTimeout "HF_Shared" 5)
      (Script.world
        { clusterID := [Except.ok "c1", Except.ok "c1"]
          getCluster := [Except.ok { ID := "c1" }, Except.ok { ID := "c1" }]
          disable := [(none, some errConnection), (some { State := "pending" }, none)]
          wait := [Except.ok { State := "completed" }] })).1 = none ∧
    (resourceSharedStorageDelete scriptedClient (dataWithTimeout "HF_Shared" 5)
      (Script.world
        { clusterID := [Except.ok "c1", Except.ok "c1"]
          getCluster := [Except.ok { ID := "c1" }, Except.ok { ID := "c1" }]
          disable := [(none, some errConnection), (some { State := "pending" }, none)]
          wait := [Except.ok { State := "completed" }] })).2.trace =
      [Event.ClusterID, Event.GetCluster "c1", Event.DisableSharedStorage,
        Event.ClusterID, Event.GetCluster "c1", Event.DisableSharedStorage, Event.WaitForTask] ∧
    (resourceSharedStorageCreate.step scriptedClient {} 75 3
      (Script.world
        { enable := [(none, some errConnection)]
          wait := [Except.error (GoError.errorString "task not found")] })).1 =
      some { Err := some (GoError.errorString "task not found"), Retryable := false } ∧
    (resourceSharedStorageCreate.step scriptedClient {} 75 3
      (Script.world
        { enable := [(none, some errConnection)]
          wait := [Except.error (GoError.errorString "task not found")] })).2.trace =
      [Event.EnableSharedStorage 75 3, Event.WaitForTask] := by
  decide

/-- C4, amended: in the shared-storage disable operation, when the start call
DisableSharedStorage fails with any error, the retry step returns at once,
without polling the task, a retryable error carrying that start error; so the
loop runs the step again. -/
theorem C4_disable_start_error_retryable {σ : Type} (client : Client σ) (w : World σ)
    (n : Nat) (clusterID : String) (cluster : Cluster) (task : Option Task) (err : GoError)
    (s1 s2 s3 : σ)
    (h1 : client.ClusterID w.remote = (Except.ok clusterID, s1))
    (h2 : client.GetCluster clusterID s1 = (Except.ok cluster, s2))
    (h3 : client.DisableSharedStorage cluster s2 = ((task, some err), s3)) :
    (resourceSharedStorageDelete.step client w).1 =
      some { Err := some err, Retryable := true } ∧
    (resourceSharedStorageDelete.step client w).2.trace =
      w.trace ++ [Event.ClusterID, Event.GetCluster clusterID, Event.DisableSharedStorage] ∧
    resource.Retry (n + 1) (resourceSharedStorageDelete.step client) w =
      resource.Retry n (resourceSharedStorageDelete.step client)
        (resourceSharedStorageDelete.step client w).2 := by
  simp [resource.Retry, resourceSharedStorageDelete.step, World.call, h1, h2, h3,
    resource.RetryableError]

/-- C4, amended, on a scripted remote whose disable call is refused. -/
theorem C4_disable_start_error_retryable_witness :
    (resourceSharedStorageDelete.step scriptedClient
      (Script.world
        { clusterID := [Except.ok "c1"]
          getCluster := [Except.ok { ID := "c1" }]
          disable := [(none, some errConnection)] })).2.trace =
      [Event.ClusterID, Event.GetCluster "c1", Event.DisableSharedStorage] :=
  (C4_disable_start_error_retryable scriptedClient
    (Script.world
      { clusterID := [Except.ok "c1"]
        getCluster := [Except.ok { ID := "c1" }]
        disable := [(none, some errConnection)] })
    0 "c1" { ID := "c1" } none errConnection _ _ _ rfl rfl rfl).2.1

/-! ## C5: the transient precondition error of the enable step -/

/-- C5: in `resourceSharedStorageCreate`, for every error of
EnableSharedStorage whose message contains "Not enough hosts" the retry step
returns a retryable error without polling a task (the calls it makes are the
start call and a sleep), so the loop runs the step again; consequently, if the
start fails this way twice and the third start returns a task whose wait ends
with a State other than "failed", the retry loop (given a timeout that lets
three runs fit) succeeds after exactly three start calls. -/
theorem C5_not_enough_hosts_retries {σ κ : Type} (client : Client σ) (d : ResourceData κ)
    (cluster : Cluster) (utilization setSize : Int) (w : World σ)
    (t1 : Option Task) (e1 : GoError) (s1 : σ)
    (h1 : client.EnableSharedStorage cluster utilization setSize w.remote = ((t1, some e1), s1))
    (hc1 : ("Not enough hosts" : String).data <:+: e1.Error.data) :
    ((resourceSharedStorageCreate.step client cluster utilization setSize w).1 =
        some { Err := some (GoError.errorString "not enough hosts"), Retryable := true } ∧
      (resourceSharedStorageCreate.step client cluster utilization setSize w).2.trace =
        w.trace ++ [Event.EnableSharedStorage utilization setSize, Event.Sleep 15] ∧
      ∀ n, resource.Retry (n + 1)
          (resourceSharedStorageCreate.step client cluster utilization setSize) w =
        resource.Retry n (resourceSharedStorageCreate.step client cluster utilization setSize)
          (resourceSharedStorageCreate.step client cluster utilization setSize w).2) ∧
    (∀ t2 e2 s2 t3 s3 t4 s4,
      client.EnableSharedStorage cluster utilization setSize s1 = ((t2, some e2), s2) →
      ("Not enough hosts" : String).data <:+: e2.Error.data →
      client.EnableSharedStorage cluster utilization setSize s2 = ((some t3, none), s3) →
      client.WaitForTask (some t3) s3 = (Except.ok t4, s4) →
      t4.State ≠ "failed" →
      3 ≤ d.TimeoutDelete →
      (resourceSharedStorageCreate.retry client d cluster utilization setSize w).1 = none ∧
      (resourceSharedStorageCreate.retry client d cluster utilization setSize w).2.trace =
        w.trace ++
          [Event.EnableSharedStorage utilization setSize, Event.Sleep 15,
            Event.EnableSharedStorage utilization setSize, Event.Sleep 15,
            Event.EnableSharedStorage utilization setSize, Event.WaitForTask] ∧
      ((resourceSharedStorageCreate.retry client d cluster utilization setSize w).2.trace.drop
          w.trace.length).count (Event.EnableSharedStorage utilization setSize) = 3) := by
  have hn1 : isNotEnoughHosts (some e1) = true := by
    simp only [isNotEnoughHosts, strings_Contains_iff]
    exact hc1
  refine ⟨?_, fun t2 e2 s2 t3 s3 t4 s4 h2 hc2 h3 h4 hs ht => ?_⟩
  · simp [resource.Retry, resourceSharedStorageCreate.step, World.call, World.sleep, h1, hn1,
      resource.RetryableError]
  · have hn2 : isNotEnoughHosts (some e2) = true := by
      simp only [isNotEnoughHosts, strings_Contains_iff]
      exact hc2
    have hn3 : isNotEnoughHosts none = false := rfl
    obtain ⟨k, hk⟩ : ∃ k, d.TimeoutDelete = k + 3 := ⟨d.TimeoutDelete - 3, by omega⟩
    have hrun : resourceSharedStorageCreate.retry client d cluster utilization setSize w =
        (none, { remote := s4, trace := w.trace ++
          [Event.EnableSharedStorage utilization setSize, Event.Sleep 15,
            Event.EnableSharedStorage utilization setSize, Event.Sleep 15,
            Event.EnableSharedStorage utilization setSize, Event.WaitForTask] }) := by
      simp [resourceSharedStorageCreate.retry, hk, resource.Retry,
        resourceSharedStorageCreate.step, World.call, World.sleep, h1, hn1, h2, hn2, h3, hn3,
        h4, hs, resource.RetryableError]
    rw [hrun]
    refine ⟨rfl, rfl, ?_⟩
    simp [List.count_cons]

/-- C5 on a scripted remote: two "Not enough hosts" answers, then a task that
completes; the loop succeeds with three start calls. -/
theorem C5_not_enough_hosts_retries_witness :
    (resourceSharedStorageCreate.retry scriptedClient (dataWithTimeout "" 5) {} 75 3
      (Script.world
        { enable := [(none, some errNotEnoughHosts), (none, some errNotEnoughHosts),
            (some { State := "pending" }, none)]
          wait := [Except.ok { State := "completed" }] })).1 = none ∧
    (resourceSharedStorageCreate.retry scriptedClient (dataWithTimeout "" 5) {} 75 3
      (Script.world
        { enable := [(none, some errNotEnoughHosts), (none, some errNotEnoughHosts),
            (some { State := "pending" }, none)]
          wait := [Except.ok { State := "completed" }] })).2.trace =
      [Event.EnableSharedStorage 75 3, Event.Sleep 15,
        Event.EnableSharedStorage 75 3, Event.Sleep 15,
        Event.EnableSharedStorage 75 3, Event.WaitForTask] :=
  ⟨((C5_not_enough_hosts_retries scriptedClient (dataWithTimeout "" 5) {} 75 3
      (Script.world
        { enable := [(none, some errNotEnoughHosts), (none, some errNotEnoughHosts),
            (some { State := "pending" }, none)]
          wait := [Except.ok { State := "completed" }] })
      none errNotEnoughHosts _ rfl ((strings_Contains_iff _ _).1 (by decide))).2
      none errNotEnoughHosts _ { State := "pending" } _ { State := "completed" } _
      rfl ((strings_Contains_iff _ _).1 (by decide)) rfl rfl (by decide) (by decide)).1,
    ((C5_not_enough_hosts_retries scriptedClient (dataWithTimeout "" 5) {} 75 3
      (Script.world
        { enable := [(none, some errNotEnoughHosts), (none, some errNotEnoughHosts),
            (some { State := "pending" }, none)]
          wait := [Except.ok { State := "completed" }] })
      none errNotEnoughHosts _ rfl ((strings_Contains_iff _ _).1 (by decide))).2
      none errNotEnoughHosts _ { State := "pending" } _ { State := "completed" } _
      rfl ((strings_Contains_iff _ _).1 (by decide)) rfl rfl (by decide) (by decide)).2.1⟩

/-! ## C6: the polling step of `resourceVMDelete` -/

/-- C6: in the polling step of `resourceVMDelete`, a lookup failing with a
not-found error ends the loop with success (nil error); a successful lookup
of a pool whose State is "deleting" gives a retryable error, so the step is run
again; a lookup failing with any other error ends the loop with that error. -/
theorem C6_vm_delete_poll_step {σ κ : Type} (client : Client σ) (d : ResourceData κ)
    (w : World σ) (n : Nat) :
    (∀ err, (client.GetPool d.Id w.remote).1 = Except.error err → isNotFound err = true →
      (resourceVMDelete.step client d w).1 = some { Err := none, Retryable := false } ∧
      (resource.Retry (n + 1) (resourceVMDelete.step client d) w).1 = none) ∧
    (∀ pool, (client.GetPool d.Id w.remote).1 = Except.ok pool → pool.State = "deleting" →
      (resourceVMDelete.step client d w).1 =
        some { Err := some (GoError.errorString ("Deleting pool " ++ d.Id)), Retryable := true } ∧
      resource.Retry (n + 1) (resourceVMDelete.step client d) w =
        resource.Retry n (resourceVMDelete.step client d) (resourceVMDelete.step client d w).2) ∧
    (∀ err, (client.GetPool d.Id w.remote).1 = Except.error err → isNotFound err = false →
      (resourceVMDelete.step client d w).1 = some { Err := some err, Retryable := false } ∧
      (resource.Retry (n + 1) (resourceVMDelete.step client d) w).1 = some err) := by
  refine ⟨fun err h hnf => ?_, fun pool h hs => ?_, fun err h hnf => ?_⟩
  · simp [resource.Retry, resourceVMDelete.step, World.call, h, hnf,
      resource.NonRetryableError]
  · simp [resource.Retry, resourceVMDelete.step, World.call, h, hs,
      resource.RetryableError, fmt.Errorf]
  · simp [resource.Retry, resourceVMDelete.step, World.call, h, hnf,
      resource.NonRetryableError]

/-- C6 on a scripted remote: a not-found answer ends the loop with success, and
a connection error ends it with that error. -/
theorem C6_vm_delete_poll_step_witness :
    (resource.Retry 1 (resourceVMDelete.step scriptedClient (dataWithId "vm-1"))
      (Script.world { getPool := [Except.error err404] })).1 = none ∧
    (resource.Retry 1 (resourceVMDelete.step scriptedClient (dataWithId "vm-1"))
      (Script.world { getPool := [Except.error (GoError.errorString "connection refused")] })).1
      = some (GoError.errorString "connection refused") :=
  ⟨((C6_vm_delete_poll_step scriptedClient (dataWithId "vm-1")
      (Script.world { getPool := [Except.error err404] }) 0).1 err404 (by rfl) (by decide)).2,
    ((C6_vm_delete_poll_step scriptedClient (dataWithId "vm-1")
      (Script.world { getPool := [Except.error (GoError.errorString "connection refused")] })
      0).2.2 (GoError.errorString "connection refused") (by rfl) (by decide)).2⟩

/-! ## C7: the existence checks -/

/-- C7: `resourceGuestPoolExists` and `resourceVMExists` answer (false, nil)
exactly when the GetPool lookup returned an error whose message contains
`"error": 404`; in every other case they answer true together with the
lookup's error unchanged (nil on success). -/
theorem C7_exists_not_found {σ κ : Type} (client : Client σ) (d : ResourceData κ)
    (w : World σ) :
    (((resourceGuestPoolExists client d w).1 = (false, none) ↔
        ∃ err, (client.GetPool d.Id w.remote).1 = Except.error err ∧
          notFoundMarker.data <:+: err.Error.data) ∧
      ((¬ ∃ err, (client.GetPool d.Id w.remote).1 = Except.error err ∧
          notFoundMarker.data <:+: err.Error.data) →
        (resourceGuestPoolExists client d w).1 =
          (true, errOf (client.GetPool d.Id w.remote).1))) ∧
    (((resourceVMExists client d w).1 = (false, none) ↔
        ∃ err, (client.GetPool d.Id w.remote).1 = Except.error err ∧
          notFoundMarker.data <:+: err.Error.data) ∧
      ((¬ ∃ err, (client.GetPool d.Id w.remote).1 = Except.error err ∧
          notFoundMarker.data <:+: err.Error.data) →
        (resourceVMExists client d w).1 =
          (true, errOf (client.GetPool d.Id w.remote).1))) := by
  simp only [← isNotFound_iff]
  cases h : (client.GetPool d.Id w.remote).1 with
  | error err =>
    cases hnf : isNotFound err <;>
      simp [resourceGuestPoolExists, resourceVMExists, World.call, h, hnf, errOf]
  | ok pool =>
    simp [resourceGuestPoolExists, resourceVMExists, World.call, h, errOf]

/-- C7 on a scripted remote: a not-found answer gives (false, nil), found from
the equivalence, and a successful lookup gives (true, nil). -/
theorem C7_exists_not_found_witness :
    (resourceVMExists scriptedClient (dataWithId "vm-1")
      (Script.world { getPool := [Except.error err404] })).1 = (false, none) ∧
    (resourceGuestPoolExists scriptedClient (dataWithId "pool-1")
      (Script.world { getPool := [Except.ok { ID := "pool-1" }] })).1 = (true, none) :=
  ⟨(C7_exists_not_found scriptedClient (dataWithId "vm-1")
      (Script.world { getPool := [Except.error err404] })).2.1.2
      ⟨err404, rfl, (isNotFound_iff err404).1 (by decide)⟩,
    (C7_exists_not_found scriptedClient (dataWithId "pool-1")
      (Script.world { getPool := [Except.ok { ID := "pool-1" }] })).1.2
      (fun h => h.elim fun _ h1 => Except.noConfusion h1.1)⟩

/-! ## C8: configuration to payload and back -/

theorem setDisks_refused {κ : Type} (d : ResourceData κ) (i : Nat) (l : List PoolDisk) :
    resourceVMRead.setDisks d i l = d := by
  induction l generalizing i with
  | nil => rfl
  | cons disk rest ih => simp [resourceVMRead.setDisks, ResourceData.Set, ih]

theorem setInterfaces_refused {κ : Type} (d : ResourceData κ) (i : Nat)
    (l : List PoolInterface) : resourceVMRead.setInterfaces d i l = d := by
  induction l generalizing i with
  | nil => rfl
  | cons iface rest ih => simp [resourceVMRead.setInterfaces, ResourceData.Set, ih]

theorem lastSet_mem (l : List (Path × Value)) (key : Path) (v : Value)
    (h : lastSet l key = some v) : (key, v) ∈ l := by
  induction l with
  | nil => simp [lastSet] at h
  | cons kv l ih =>
    obtain ⟨k, v1⟩ := kv
    rw [lastSet] at h
    cases hl : lastSet l key with
    | some v2 =>
      rw [hl] at h
      simp only [Option.some.injEq] at h
      subst h
      exact List.mem_cons_of_mem _ (ih hl)
    | none =>
      rw [hl] at h
      by_cases hk : k = key
      · simp only [hk, if_true, Option.some.injEq] at h
        subst h hk
        exact List.mem_cons_self _ _
      · simp [hk] at h

theorem get_eq_config {κ : Type} (cfg : κ → Path → Option Value) (d : ResourceData κ)
    (key : Path) (h : ∀ v, (key, v) ∈ d.sets → cfg d.config key = some v) :
    d.Get cfg key = cfg d.config key := by
  unfold ResourceData.Get ResourceData.lookup
  cases hl : lastSet d.sets key with
  | none => simp
  | some v => simp [h v (lastSet_mem _ _ _ hl)]


theorem vmRead_fields_written (d : ResourceData VMConfig)
    (hd : d.schema = resourceVM.schema) (hds : d.sets = [])
    (hcpu : d.config.cpu ≠ 0) (hmem : d.config.memory ≠ 0) :
    ∃ d1, resourceVMRead.fields (vmFromResource d) d = some d1 ∧ d1.config = d.config ∧
      d1.sets =
        [(Path.attr "name", Value.str d.config.name), (Path.attr "cpu", Value.int d.config.cpu),
          (Path.attr "memory", Value.int d.config.memory),
          (Path.attr "gpu", Value.bool d.config.gpu),
          (Path.attr "inject_agent", Value.bool d.config.inject_agent),
          (Path.attr "state", Value.str ""), (Path.attr "os", Value.str d.config.os),
          (Path.attr "firmware", Value.str d.config.firmware),
          (Path.attr "display_driver", Value.str d.config.display_driver)] ++
        (if d.config.cloudinit_enabled = true then
          [(Path.attr "cloudinit_enabled", Value.bool d.config.cloudinit_enabled),
            (Path.attr "cloudinit_userdata", Value.str d.config.cloudinit_userdata),
            (Path.attr "cloudinit_networkconfig",
              Value.str d.config.cloudinit_networkconfig)]
        else []) := by
  cases hci : d.config.cloudinit_enabled <;> cases hb : d.config.backup <;>
    simp [resourceVMRead.fields, vmFromResource, GetOkInt, hcpu, hmem, ResourceData.Set, hd,
      resourceVM.schema, setDisks_refused, setInterfaces_refused, hds, hci, hb]

theorem poolRead_fields_written (p : ResourceData GuestPoolConfig)
    (hp : p.schema = resourceGuestPool.schema) (hps : p.sets = [])
    (hcpu : p.config.cpu ≠ 0) (hmem : p.config.memory ≠ 0) :
    ∃ p1, resourceGuestPoolRead.fields (poolFromResource p) p = some p1 ∧
      p1.config = p.config ∧
      p1.sets =
        [(Path.attr "name", Value.str p.config.name), (Path.attr "cpu", Value.int p.config.cpu),
          (Path.attr "memory", Value.int p.config.memory),
          (Path.attr "gpu", Value.bool p.config.gpu),
          (Path.attr "persistent", Value.bool p.config.persistent),
          (Path.attr "template", Value.str p.config.template),
          (Path.attr "profile", Value.str p.config.profile),
          (Path.attr "seed", Value.str p.config.seed), (Path.attr "state", Value.str ""),
          (Path.attr "storage_type", Value.str p.config.storage_type),
          (Path.attr "storage_id", Value.str p.config.storage_id)] := by
  simp [resourceGuestPoolRead.fields, poolFromResource, GetOkInt, hcpu, hmem, ResourceData.Set,
    hp, resourceGuestPool.schema, hps]


theorem vmRead_get_preserved (d : ResourceData VMConfig)
    (hd : d.schema = resourceVM.schema) (hds : d.sets = [])
    (hcpu : d.config.cpu ≠ 0) (hmem : d.config.memory ≠ 0) :
    ∃ d1, resourceVMRead.fields (vmFromResource d) d = some d1 ∧
      ∀ key, key ≠ Path.attr "state" → d1.Get VMConfig.Get key = VMConfig.Get d.config key := by
  obtain ⟨d1, hd1, hcfg, hsets⟩ := vmRead_fields_written d hd hds hcpu hmem
  refine ⟨d1, hd1, fun key hkey => ?_⟩
  rw [← hcfg]
  apply get_eq_config
  intro v hv
  rw [hsets] at hv
  rw [hcfg]
  simp only [List.mem_append, List.mem_cons, Prod.mk.injEq, List.mem_nil_iff, or_false] at hv
  rcases hv with (⟨rfl, rfl⟩ | ⟨rfl, rfl⟩ | ⟨rfl, rfl⟩ | ⟨rfl, rfl⟩ | ⟨rfl, rfl⟩ | ⟨rfl, rfl⟩ |
    ⟨rfl, rfl⟩ | ⟨rfl, rfl⟩ | ⟨rfl, rfl⟩) | hv
  any_goals rfl
  · exact absurd rfl hkey
  · split_ifs at hv
    · simp only [List.mem_cons, Prod.mk.injEq, List.mem_nil_iff, or_false] at hv
      rcases hv with ⟨rfl, rfl⟩ | ⟨rfl, rfl⟩ | ⟨rfl, rfl⟩ <;> rfl
    · simp at hv

theorem poolRead_get_preserved (p : ResourceData GuestPoolConfig)
    (hp : p.schema = resourceGuestPool.schema) (hps : p.sets = [])
    (hcpu : p.config.cpu ≠ 0) (hmem : p.config.memory ≠ 0) :
    ∃ p1, resourceGuestPoolRead.fields (poolFromResource p) p = some p1 ∧
      ∀ key, key ≠ Path.attr "state" →
        p1.Get GuestPoolConfig.Get key = GuestPoolConfig.Get p.config key := by
  obtain ⟨p1, hp1, hcfg, hsets⟩ := poolRead_fields_written p hp hps hcpu hmem
  refine ⟨p1, hp1, fun key hkey => ?_⟩
  rw [← hcfg]
  apply get_eq_config
  intro v hv
  rw [hsets] at hv
  rw [hcfg]
  simp only [List.mem_cons, Prod.mk.injEq, List.mem_nil_iff, or_false] at hv
  rcases hv with ⟨rfl, rfl⟩ | ⟨rfl, rfl⟩ | ⟨rfl, rfl⟩ | ⟨rfl, rfl⟩ | ⟨rfl, rfl⟩ | ⟨rfl, rfl⟩ |
    ⟨rfl, rfl⟩ | ⟨rfl, rfl⟩ | ⟨rfl, rfl⟩ | ⟨rfl, rfl⟩ | ⟨rfl, rfl⟩
  any_goals rfl
  exact absurd rfl hkey

/-- C8, as stated, fails: a guest-pool configuration that leaves the optional
`cpu` and `memory` unspecified gives a payload without CPU and Mem, on which
the field mapping of `resourceGuestPoolRead` panics at `CPU[0]`; and a VM
configuration with `cpu` 0 gives a payload on which the field mapping of
`resourceVMRead` panics the same way. -/
theorem C8_round_trip_counterexample :
    poolUnsetCpu.config.cpu = 0 ∧
    (poolFromResource poolUnsetCpu).GuestProfile.map (fun gp => gp.CPU) = some [] ∧
    (resourceGuestPoolRead.fields (poolFromResource poolUnsetCpu) poolUnsetCpu).isSome = false ∧
    vmZeroCpu.config.cpu = 0 ∧
    (vmFromResource vmZeroCpu).GuestProfile.map (fun gp => gp.CPU) = some [] ∧
    (resourceVMRead.fields (vmFromResource vmZeroCpu) vmZeroCpu).isSome = false := by
  decide

/-- C8, amended: for every VM configuration whose `cpu` and `memory` are
non-zero, the field mapping of `resourceVMRead` applied to a response equal to
the payload `vmFromResource` builds does not fail, and afterwards `d.Get` gives
the configured value of every key other than the computed `state`: name, cpu,
memory, gpu, firmware, display_driver, os, inject_agent, the cloudinit_*
attributes, every disk's type/storage_id/filename/disk_driver/format, every
interface's network/vlan/emulation, and the backup block; likewise for every
guest-pool configuration whose `cpu` and `memory` are non-zero with
`poolFromResource` and `resourceGuestPoolRead`: name, density, cpu, memory,
gpu, persistent, template, profile, seed, storage_type, storage_id. -/
theorem C8_round_trip_nonzero_cpu_memory (d : ResourceData VMConfig)
    (p : ResourceData GuestPoolConfig)
    (hd : d.schema = resourceVM.schema) (hds : d.sets = [])
    (hcpu : d.config.cpu ≠ 0) (hmem : d.config.memory ≠ 0)
    (hp : p.schema = resourceGuestPool.schema) (hps : p.sets = [])
    (hpcpu : p.config.cpu ≠ 0) (hpmem : p.config.memory ≠ 0) :
    (∃ d1, resourceVMRead.fields (vmFromResource d) d = some d1 ∧
      (∀ key, key ≠ Path.attr "state" →
        d1.Get VMConfig.Get key = VMConfig.Get d.config key) ∧
      d1.Get VMConfig.Get (Path.attr "name") = some (Value.str d.config.name) ∧
      d1.Get VMConfig.Get (Path.attr "cpu") = some (Value.int d.config.cpu) ∧
      d1.Get VMConfig.Get (Path.attr "memory") = some (Value.int d.config.memory) ∧
      d1.Get VMConfig.Get (Path.attr "gpu") = some (Value.bool d.config.gpu) ∧
      d1.Get VMConfig.Get (Path.attr "firmware") = some (Value.str d.config.firmware) ∧
      d1.Get VMConfig.Get (Path.attr "display_driver") =
        some (Value.str d.config.display_driver) ∧
      d1.Get VMConfig.Get (Path.attr "os") = some (Value.str d.config.os) ∧
      d1.Get VMConfig.Get (Path.attr "inject_agent") =
        some (Value.bool d.config.inject_agent) ∧
      d1.Get VMConfig.Get (Path.attr "cloudinit_enabled") =
        some (Value.bool d.config.cloudinit_enabled) ∧
      d1.Get VMConfig.Get (Path.attr "cloudinit_userdata") =
        some (Value.str d.config.cloudinit_userdata) ∧
      d1.Get VMConfig.Get (Path.attr "cloudinit_networkconfig") =
        some (Value.str d.config.cloudinit_networkconfig) ∧
      (∀ i disk, d.config.disk[i]? = some disk →
        d1.Get VMConfig.Get (Path.item "disk" i "type") = some (Value.str disk.type) ∧
        d1.Get VMConfig.Get (Path.item "disk" i "storage_id") =
          some (Value.str disk.storage_id) ∧
        d1.Get VMConfig.Get (Path.item "disk" i "filename") =
          some (Value.str disk.filename) ∧
        d1.Get VMConfig.Get (Path.item "disk" i "disk_driver") =
          some (Value.str disk.disk_driver) ∧
        d1.Get VMConfig.Get (Path.item "disk" i "format") = some (Value.str disk.format)) ∧
      (∀ i iface, d.config.interface[i]? = some iface →
        d1.Get VMConfig.Get (Path.item "interface" i "network") =
          some (Value.str iface.network) ∧
        d1.Get VMConfig.Get (Path.item "interface" i "vlan") = some (Value.int iface.vlan) ∧
        d1.Get VMConfig.Get (Path.item "interface" i "emulation") =
          some (Value.str iface.emulation)) ∧
      (∀ backup rest, d.config.backup = backup :: rest →
        d1.Get VMConfig.Get (Path.item "backup" 0 "enabled") =
          some (Value.bool backup.enabled) ∧
        d1.Get VMConfig.Get (Path.item "backup" 0 "frequency") =
          some (Value.str backup.frequency) ∧
        d1.Get VMConfig.Get (Path.item "backup" 0 "target") =
          some (Value.str backup.target))) ∧
    (∃ p1, resourceGuestPoolRead.fields (poolFromResource p) p = some p1 ∧
      (∀ key, key ≠ Path.attr "state" →
        p1.Get GuestPoolConfig.Get key = GuestPoolConfig.Get p.config key) ∧
      p1.Get GuestPoolConfig.Get (Path.attr "name") = some (Value.str p.config.name) ∧
      p1.Get GuestPoolConfig.Get (Path.index "density" 0) =
        some (Value.int p.config.density.1) ∧
      p1.Get GuestPoolConfig.Get (Path.index "density" 1) =
        some (Value.int p.config.density.2) ∧
      p1.Get GuestPoolConfig.Get (Path.attr "cpu") = some (Value.int p.config.cpu) ∧
      p1.Get GuestPoolConfig.Get (Path.attr "memory") = some (Value.int p.config.memory) ∧
      p1.Get GuestPoolConfig.Get (Path.attr "gpu") = some (Value.bool p.config.gpu) ∧
      p1.Get GuestPoolConfig.Get (Path.attr "persistent") =
        some (Value.bool p.config.persistent) ∧
      p1.Get GuestPoolConfig.Get (Path.attr "template") = some (Value.str p.config.template) ∧
      p1.Get GuestPoolConfig.Get (Path.attr "profile") = some (Value.str p.config.profile) ∧
      p1.Get GuestPoolConfig.Get (Path.attr "seed") = some (Value.str p.config.seed) ∧
      p1.Get GuestPoolConfig.Get (Path.attr "storage_type") =
        some (Value.str p.config.storage_type) ∧
      p1.Get GuestPoolConfig.Get (Path.attr "storage_id") =
        some (Value.str p.config.storage_id)) := by
  constructor
  · obtain ⟨d1, hd1, hget⟩ := vmRead_get_preserved d hd hds hcpu hmem
    refine ⟨d1, hd1, hget, ?_, ?_, ?_, ?_, ?_, ?_, ?_, ?_, ?_, ?_, ?_, ?_, ?_, ?_⟩
    · exact hget _ (by decide)
    · exact hget _ (by decide)
    · exact hget _ (by decide)
    · exact hget _ (by decide)
    · exact hget _ (by decide)
    · exact hget _ (by decide)
    · exact hget _ (by decide)
    · exact hget _ (by decide)
    · exact hget _ (by decide)
    · exact hget _ (by decide)
    · exact hget _ (by decide)
    · intro i disk hi
      refine ⟨?_, ?_, ?_, ?_, ?_⟩ <;>
        · rw [hget _ (by simp)]
          simp [VMConfig.Get, hi, DiskConfig.Get]
    · intro i iface hi
      refine ⟨?_, ?_, ?_⟩ <;>
        · rw [hget _ (by simp)]
          simp [VMConfig.Get, hi, InterfaceConfig.Get]
    · intro backup rest hb
      refine ⟨?_, ?_, ?_⟩ <;>
        · rw [hget _ (by simp)]
          simp [VMConfig.Get, hb, BackupConfig.Get]
  · obtain ⟨p1, hp1, hget⟩ := poolRead_get_preserved p hp hps hpcpu hpmem
    refine ⟨p1, hp1, hget, ?_, ?_, ?_, ?_, ?_, ?_, ?_, ?_, ?_, ?_, ?_, ?_⟩ <;>
      exact hget _ (by decide)

/-- C8, amended, on `vmExample` and `poolExample`: the mapping succeeds, and
afterwards the raw disk format, the cloud-init user data (cloud-init being
disabled) and the pool's first density bound read as configured. -/
theorem C8_round_trip_nonzero_cpu_memory_witness :
    (∃ d1, resourceVMRead.fields (vmFromResource vmExample) vmExample = some d1 ∧
      d1.Get VMConfig.Get (Path.attr "cloudinit_userdata") =
        some (Value.str "#cloud-config") ∧
      d1.Get VMConfig.Get (Path.item "disk" 0 "format") = some (Value.str "raw")) ∧
    (∃ p1, resourceGuestPoolRead.fields (poolFromResource poolExample) poolExample = some p1 ∧
      p1.Get GuestPoolConfig.Get (Path.index "density" 0) = some (Value.int 1)) :=
  ⟨(C8_round_trip_nonzero_cpu_memory vmExample poolExample rfl rfl (by decide) (by decide)
      rfl rfl (by decide) (by decide)).1.imp fun _ h =>
      ⟨h.1, h.2.2.2.2.2.2.2.2.2.2.2.1,
        (h.2.2.2.2.2.2.2.2.2.2.2.2.2.1 0 _ rfl).2.2.2.2⟩,
    (C8_round_trip_nonzero_cpu_memory vmExample poolExample rfl rfl (by decide) (by decide)
      rfl rfl (by decide) (by decide)).2.imp fun _ h => ⟨h.1, h.2.2.2.1⟩⟩

/-! ## C9: polling past the timeout -/

/-- C9: for each polling loop of the provider (VM create wait-for-guest, VM
delete wait-for-absence, shared-storage enable, shared-storage disable), if the
step reports a retryable condition at every run that fits in the configured
timeout, the operation ends with the timeout error: the loop stops and does
not report success. -/
theorem C9_timeout_aborts {σ κ : Type} (client : Client σ) (d : ResourceData κ)
    (w : World σ) (guestName : String) (pool : Pool) (cluster : Cluster)
    (utilization setSize : Int) :
    (keepsRetrying (resourceVMCreate.step client guestName pool) d.TimeoutCreate w = true →
      (resourceVMCreate.retry client d guestName pool w).1 = some GoError.TimeoutError) ∧
    ((client.GetPool d.Id w.remote).1 = Except.ok pool →
      keepsRetrying (resourceVMDelete.step client d) d.TimeoutDelete
        (resourceVMDelete.pollStart client d pool w) = true →
      (resourceVMDelete client d w).1 = some GoError.TimeoutError) ∧
    (keepsRetrying (resourceSharedStorageCreate.step client cluster utilization setSize)
        d.TimeoutDelete w = true →
      (resourceSharedStorageCreate.retry client d cluster utilization setSize w).1 =
        some GoError.TimeoutError) ∧
    (keepsRetrying (resourceSharedStorageDelete.step client) d.TimeoutDelete w = true →
      (resourceSharedStorageDelete client d w).1 = some GoError.TimeoutError) := by
  refine ⟨fun h => retry_keepsRetrying _ _ _ h, fun hp h => ?_,
    fun h => retry_keepsRetrying _ _ _ h, fun h => retry_keepsRetrying _ _ _ h⟩
  have hrun : resourceVMDelete client d w =
      resource.Retry d.TimeoutDelete (resourceVMDelete.step client d)
        (resourceVMDelete.pollStart client d pool w) := by
    simp [resourceVMDelete, resourceVMDelete.pollStart, World.call, hp]
  rw [hrun]
  exact retry_keepsRetrying _ _ _ h

/-- C9 on a scripted remote: the pool stays in State "deleting" for the three
polls that fit in the timeout, and `resourceVMDelete` ends with the timeout
error. -/
theorem C9_timeout_aborts_witness :
    (resourceVMDelete scriptedClient (dataWithTimeout "vm-1" 3)
      (Script.world
        { getPool := [Except.ok { ID := "vm-1" }, Except.ok { ID := "vm-1", State := "deleting" },
            Except.ok { ID := "vm-1", State := "deleting" },
            Except.ok { ID := "vm-1", State := "deleting" }]
          poolDelete := [none] })).1 = some GoError.TimeoutError :=
  (C9_timeout_aborts scriptedClient (dataWithTimeout "vm-1" 3)
    (Script.world
      { getPool := [Except.ok { ID := "vm-1" }, Except.ok { ID := "vm-1", State := "deleting" },
          Except.ok { ID := "vm-1", State := "deleting" },
          Except.ok { ID := "vm-1", State := "deleting" }]
        poolDelete := [none] })
    "VM_1" { ID := "vm-1" } {} 75 3).2.1 rfl (by decide)

/-! ## C10: the error of the delete call in `resourceVMDelete` -/

/-- C10: in `resourceVMDelete`, once the initial GetPool lookup has succeeded,
the error returned by `pool.Delete` is ignored: the result is that of the
polling loop started after the delete call, whose first lookup is made
whenever the timeout lets one run fit; and replacing the delete call by one
that returns any other error (or none) with the same effect on the remote
leaves the result, the final remote state and the calls made unchanged. -/
theorem C10_delete_error_ignored {σ κ : Type} (client : Client σ) (d : ResourceData κ)
    (w : World σ) (pool : Pool)
    (hp : (client.GetPool d.Id w.remote).1 = Except.ok pool) :
    resourceVMDelete client d w =
      resource.Retry d.TimeoutDelete (resourceVMDelete.step client d)
        (resourceVMDelete.pollStart client d pool w) ∧
    (resourceVMDelete.pollStart client d pool w).trace =
      w.trace ++ [Event.GetPool d.Id, Event.PoolDelete pool.ID] ∧
    (1 ≤ d.TimeoutDelete →
      (w.trace ++ [Event.GetPool d.Id, Event.PoolDelete pool.ID, Event.GetPool d.Id]) <+:
        (resourceVMDelete client d w).2.trace) ∧
    ∀ del2 : Pool → σ → Option GoError × σ,
      (∀ p s, (del2 p s).2 = (client.PoolDelete p s).2) →
      resourceVMDelete { client with PoolDelete := del2 } d w = resourceVMDelete client d w := by
  have hrun : resourceVMDelete client d w =
      resource.Retry d.TimeoutDelete (resourceVMDelete.step client d)
        (resourceVMDelete.pollStart client d pool w) := by
    simp [resourceVMDelete, resourceVMDelete.pollStart, World.call, hp]
  have htrace : (resourceVMDelete.pollStart client d pool w).trace =
      w.trace ++ [Event.GetPool d.Id, Event.PoolDelete pool.ID] := by
    simp [resourceVMDelete.pollStart, World.call]
  refine ⟨hrun, htrace, fun ht => ?_, fun del2 h => ?_⟩
  · obtain ⟨k, hk⟩ : ∃ k, d.TimeoutDelete = k + 1 := ⟨d.TimeoutDelete - 1, by omega⟩
    rw [hrun, hk]
    have hstep := vmDelete_step_trace client d (resourceVMDelete.pollStart client d pool w)
    rw [htrace, List.append_assoc] at hstep
    exact hstep.trans (retry_first_run_trace _
      (fun w1 => (List.prefix_append _ _).trans (vmDelete_step_trace client d w1)) k _)
  · have hstep : resourceVMDelete.step { client with PoolDelete := del2 } d =
        resourceVMDelete.step client d := rfl
    simp [resourceVMDelete, World.call, hp, h, hstep]

/-- C10 on a scripted remote: a delete call that is refused gives the same run
as one that succeeds. -/
theorem C10_delete_error_ignored_witness :
    resourceVMDelete
      { scriptedClient with
        PoolDelete := fun p s => (some errConnection, (scriptedClient.PoolDelete p s).2) }
      (dataWithTimeout "vm-1" 3)
      (Script.world
        { getPool := [Except.ok { ID := "vm-1" }, Except.ok { ID := "vm-1", State := "deleting" },
            Except.error err404]
          poolDelete := [none] }) =
    resourceVMDelete scriptedClient (dataWithTimeout "vm-1" 3)
      (Script.world
        { getPool := [Except.ok { ID := "vm-1" }, Except.ok { ID := "vm-1", State := "deleting" },
            Except.error err404]
          poolDelete := [none] }) :=
  (C10_delete_error_ignored scriptedClient (dataWithTimeout "vm-1" 3)
    (Script.world
      { getPool := [Except.ok { ID := "vm-1" }, Except.ok { ID := "vm-1", State := "deleting" },
          Except.error err404]
        poolDelete := [none] })
    { ID := "vm-1" } rfl).2.2.2 _ (fun _ _ => rfl)

/-! ## C11: a pool that is found and not being deleted -/

/-- C11: in the polling step of `resourceVMDelete`, whenever the pool lookup
succeeds and the pool's State is anything other than "deleting", the step ends
the loop with a nil error; so `resourceVMDelete`, whose first lookup and first
poll both find the pool in such a state, reports success although the pool
was found. -/
theorem C11_vm_delete_found_is_success {σ κ : Type} (client : Client σ) (d : ResourceData κ)
    (w : World σ) (pool : Pool)
    (hp : (client.GetPool d.Id w.remote).1 = Except.ok pool)
    (hs : pool.State ≠ "deleting") :
    (resourceVMDelete.step client d w).1 = some { Err := none, Retryable := false } ∧
    (∀ n, (resource.Retry (n + 1) (resourceVMDelete.step client d) w).1 = none) ∧
    (∀ pool1, (client.GetPool d.Id (resourceVMDelete.pollStart client d pool w).remote).1 =
        Except.ok pool1 →
      pool1.State ≠ "deleting" → 1 ≤ d.TimeoutDelete →
      (resourceVMDelete client d w).1 = none ∧
      (resourceVMDelete client d w).2.trace =
        w.trace ++ [Event.GetPool d.Id, Event.PoolDelete pool.ID, Event.GetPool d.Id]) := by
  refine ⟨?_, fun n => ?_, fun pool1 hp1 hs1 ht => ?_⟩
  · simp [resourceVMDelete.step, World.call, hp, hs, resource.NonRetryableError]
  · simp [resource.Retry, resourceVMDelete.step, World.call, hp, hs,
      resource.NonRetryableError]
  · obtain ⟨k, hk⟩ : ∃ k, d.TimeoutDelete = k + 1 := ⟨d.TimeoutDelete - 1, by omega⟩
    simp only [resourceVMDelete.pollStart, World.call] at hp1
    simp [resourceVMDelete, hk, resource.Retry, resourceVMDelete.step, World.call, hp, hp1, hs1,
      resource.NonRetryableError]

/-- C11 on a scripted remote: the delete call is refused and the pool stays
"ready", yet `resourceVMDelete` returns no error. -/
theorem C11_vm_delete_found_is_success_witness :
    (resourceVMDelete scriptedClient (dataWithTimeout "vm-1" 3)
      (Script.world
        { getPool := [Except.ok { ID := "vm-1", State := "ready" },
            Except.ok { ID := "vm-1", State := "ready" }]
          poolDelete := [some errConnection] })).1 = none :=
  ((C11_vm_delete_found_is_success scriptedClient (dataWithTimeout "vm-1" 3)
    (Script.world
      { getPool := [Except.ok { ID := "vm-1", State := "ready" },
          Except.ok { ID := "vm-1", State := "ready" }]
        poolDelete := [some errConnection] })
    { ID := "vm-1", State := "ready" } rfl (by decide)).2.2
    { ID := "vm-1", State := "ready" } rfl (by decide) (by decide)).1

/-! ## C12: the wait-for-guest step of `resourceVMCreate` -/

/-- C12: `resourceVMCreate` waits for the guest whose name is the pool name
upper-cased with every space replaced by an underscore.  The wait step ends the
loop with success if and only if the lookup succeeds and `GuestState` is an
element of `TargetState`; it returns a retryable error when the lookup fails
with a message containing `"error": 404`, or succeeds with `GuestState` not in
`TargetState` (in particular when `TargetState` is empty); and it ends the loop
with the lookup's error for any other lookup failure. -/
theorem C12_vm_create_wait_step {σ : Type} (upper : Char → Char) (client : Client σ)
    (d : ResourceData VMConfig) (w : World σ) (guestName : String) (pool : Pool) (n : Nat) :
    (((resourceVMCreate.step client guestName pool w).1 =
          some { Err := none, Retryable := false } ↔
        ∃ guest, (client.GetGuest guestName w.remote).1 = Except.ok guest ∧
          guest.GuestState ∈ guest.TargetState) ∧
      ((resourceVMCreate.step client guestName pool w).1 =
          some { Err := none, Retryable := false } →
        (resource.Retry (n + 1) (resourceVMCreate.step client guestName pool) w).1 = none)) ∧
    (∀ err, (client.GetGuest guestName w.remote).1 = Except.error err → isNotFound err = true →
      (resourceVMCreate.step client guestName pool w).1 =
        some { Err := some (GoError.errorString ("Building pool " ++ pool.ID)),
               Retryable := true }) ∧
    (∀ guest, (client.GetGuest guestName w.remote).1 = Except.ok guest →
      (guest.GuestState ∉ guest.TargetState ∨ guest.TargetState = []) →
      (resourceVMCreate.step client guestName pool w).1 =
        some { Err := some (GoError.errorString ("Building pool " ++ pool.ID)),
               Retryable := true }) ∧
    (∀ err, (client.GetGuest guestName w.remote).1 = Except.error err → isNotFound err = false →
      (resourceVMCreate.step client guestName pool w).1 =
        some { Err := some err, Retryable := false } ∧
      (resource.Retry (n + 1) (resourceVMCreate.step client guestName pool) w).1 = some err) ∧
    (resourceVMCreate.guestName upper pool.Name).data =
      pool.Name.data.map (fun c => if upper c = ' ' then '_' else upper c) ∧
    (∀ s1 pool1 s2, client.PoolCreate (vmFromResource d) w.remote = (none, s1) →
      client.GetPoolByName (vmFromResource d).Name s1 = (Except.ok pool1, s2) →
      1 ≤ d.TimeoutCreate →
      (w.trace ++ [Event.PoolCreate (vmFromResource d).Name,
          Event.GetPoolByName (vmFromResource d).Name,
          Event.GetGuest (resourceVMCreate.guestName upper pool1.Name)]) <+:
        (resourceVMCreate upper client d w).2.trace) := by
  refine ⟨⟨?_, fun h => ?_⟩, fun err h hnf => ?_, fun guest h hno => ?_, fun err h hnf => ?_,
    ?_, fun s1 pool1 s2 h1 h2 ht => ?_⟩
  · cases h : (client.GetGuest guestName w.remote).1 with
    | error err =>
      cases hnf : isNotFound err <;>
        simp [resourceVMCreate.step, World.call, h, hnf, resource.NonRetryableError,
          resource.RetryableError]
    | ok guest =>
      by_cases hmem : guest.GuestState ∈ guest.TargetState
      · have hany := (guestState_any_iff guest).2 hmem
        simp [resourceVMCreate.step, World.call, h, hany, hmem, resource.NonRetryableError]
      · have hany : guest.TargetState.any (fun v => v == guest.GuestState) = false := by
          rw [← Bool.not_eq_true, guestState_any_iff]
          exact hmem
        simp [resourceVMCreate.step, World.call, h, hany, hmem, resource.RetryableError]
  · rcases hf : resourceVMCreate.step client guestName pool w with ⟨r, w1⟩
    rw [hf] at h
    simp only at h
    simp [resource.Retry, hf, h]
  · simp [resourceVMCreate.step, World.call, h, hnf, resource.RetryableError, fmt.Errorf]
  · have hmem : guest.GuestState ∉ guest.TargetState := by
      rcases hno with hno | hno
      · exact hno
      · simp [hno]
    have hany : guest.TargetState.any (fun v => v == guest.GuestState) = false := by
      rw [← Bool.not_eq_true, guestState_any_iff]
      exact hmem
    simp [resourceVMCreate.step, World.call, h, hany, resource.RetryableError, fmt.Errorf]
  · simp [resource.Retry, resourceVMCreate.step, World.call, h, hnf,
      resource.NonRetryableError]
  · simp [resourceVMCreate.guestName, strings.ReplaceAll, strings.ToUpper, List.map_map,
      Function.comp_def]
  · obtain ⟨k, hk⟩ : ∃ k, d.TimeoutCreate = k + 1 := ⟨d.TimeoutCreate - 1, by omega⟩
    have hloop : (w.trace ++ [Event.PoolCreate (vmFromResource d).Name,
          Event.GetPoolByName (vmFromResource d).Name,
          Event.GetGuest (resourceVMCreate.guestName upper pool1.Name)]) <+:
        (resourceVMCreate.retry client d (resourceVMCreate.guestName upper pool1.Name) pool1
          { remote := s2, trace := w.trace ++ [Event.PoolCreate (vmFromResource d).Name,
              Event.GetPoolByName (vmFromResource d).Name] }).2.trace := by
      have hstep := vmCreate_step_trace client (resourceVMCreate.guestName upper pool1.Name) pool1
        { remote := s2, trace := w.trace ++ [Event.PoolCreate (vmFromResource d).Name,
            Event.GetPoolByName (vmFromResource d).Name] }
      simp only [List.append_assoc, List.cons_append, List.nil_append] at hstep
      rw [resourceVMCreate.retry, hk]
      exact hstep.trans (retry_first_run_trace _
        (fun w1 => (List.prefix_append _ _).trans (vmCreate_step_trace client _ pool1 w1)) k _)
    rcases hr : resourceVMCreate.retry client d (resourceVMCreate.guestName upper pool1.Name) pool1
        { remote := s2, trace := w.trace ++ [Event.PoolCreate (vmFromResource d).Name,
            Event.GetPoolByName (vmFromResource d).Name] } with ⟨r, w3⟩
    rw [hr] at hloop
    have hrun : resourceVMCreate upper client d w =
        match (r, w3) with
        | (some err, w3) => (some (some err, d), w3)
        | (none, w3) => resourceVMRead client (d.SetId pool1.ID) w3 := by
      simp [resourceVMCreate, World.call, h1, h2, hr]
    rw [hrun]
    cases r with
    | some err => exact hloop
    | none => exact hloop.trans (vmRead_trace client _ w3)

/-- C12 on a scripted remote, with the ASCII case table: the pool named "web 1"
is waited for as guest "WEB_1", and a guest whose state is among its target
states ends the loop with success. -/
theorem C12_vm_create_wait_step_witness :
    (resourceVMCreate.guestName Char.toUpper "web 1").data = "WEB_1".data ∧
    (resource.Retry 1 (resourceVMCreate.step scriptedClient "WEB_1" { ID := "vm-1" })
      (Script.world { getGuest := [Except.ok guestReady] })).1 = none ∧
    (resourceVMCreate.step scriptedClient "WEB_1" { ID := "vm-1" }
      (Script.world { getGuest := [Except.ok guestBooting] })).1 =
      some { Err := some (GoError.errorString "Building pool vm-1"), Retryable := true } :=
  ⟨(C12_vm_create_wait_step Char.toUpper scriptedClient vmExample
      (Script.world {}) "WEB_1" { Name := "web 1" } 0).2.2.2.2.1,
    (C12_vm_create_wait_step Char.toUpper scriptedClient vmExample
      (Script.world { getGuest := [Except.ok guestReady] }) "WEB_1" { ID := "vm-1" } 0).1.2
      ((C12_vm_create_wait_step Char.toUpper scriptedClient vmExample
        (Script.world { getGuest := [Except.ok guestReady] }) "WEB_1" { ID := "vm-1" } 0).1.1.2
        ⟨guestReady, rfl, by decide⟩),
    (C12_vm_create_wait_step Char.toUpper scriptedClient vmExample
      (Script.world { getGuest := [Except.ok guestBooting] }) "WEB_1" { ID := "vm-1" }
      0).2.2.1 guestBooting rfl (Or.inl (by decide))⟩

end Hiveio
